import Mathlib

/-
Verification of the AutoMock TTL cleanup routine
(src/terraform/modules/automock-ecs/scripts/ttl_cleanup.py).

The Python program is shallowly embedded: the AWS SDK is modelled as a
record of oracles (`Cloud`), one per API call the program makes, each
returning either a value or an error; environment variables are an `Env`
record; timestamps are integers (seconds, UTC); every embedded function
is total and records the sequence of platform calls it attempts as a
`List Event` trace.
-/

namespace AutoMock

/-- Errors raised by platform calls.  `notFound` stands for the
"resource does not exist / already deleted" family of exceptions
(e.g. ACM's ResourceNotFoundException); `other` is any other error. -/
inductive AwsErr where
  | notFound
  | other (msg : String)
  deriving DecidableEq

/-- Rendering used when an error message is stored in the report,
mirroring `str(e)` in the Python source. -/
def AwsErr.msg : AwsErr → String
  | .notFound => "ResourceNotFoundException"
  | .other m => m

/-- A timestamp string as the program sees it after
`datetime.fromisoformat(value.replace('Z', '+00:00'))`: either it parses
to a UTC instant or the parse raises (modelled as `invalid`). -/
inductive TimeStr where
  | invalid
  | utc (t : Int)
  deriving DecidableEq

/-- One entry of `response['services']` from `ecs.describe_services`;
only the `createdAt` field is read by the program. -/
structure Service where
  createdAt : Option Int
  deriving DecidableEq

/-- One tag from `elbv2.describe_tags`. -/
structure Tag where
  key : String
  value : TimeStr
  deriving DecidableEq

/-- One entry of `response['TagDescriptions']`. -/
structure TagDescription where
  tags : List Tag
  deriving DecidableEq

/-- One entry of `response['TargetGroups']` from
`elbv2.describe_target_groups`. -/
structure TargetGroup where
  targetGroupArn : String
  loadBalancerArns : List String
  deriving DecidableEq

/-- Response of `s3.list_objects_v2`: `Contents` is absent (`none`) when
the bucket is empty; `IsTruncated` signals further pages, which the
program never requests. -/
structure ListObjectsResp where
  contents : Option (List String)
  isTruncated : Bool
  deriving DecidableEq

/-- One entry of `response['ResourceRecordSets']` from Route53. -/
structure RecordSet where
  name : String
  rtype : String
  hasAliasTarget : Bool
  deriving DecidableEq

/-- One entry of `response['Vpcs']`. -/
structure Vpc where
  vpcId : String
  deriving DecidableEq

/-- One entry of `response['NatGateways']`. -/
structure NatGateway where
  natGatewayId : String
  state : String
  deriving DecidableEq

/-- One entry of `response['Addresses']` from `ec2.describe_addresses`.
`associationId` is `none` when the key `AssociationId` is absent.
`networkId` is ghost data recording which virtual network the address
belongs to; the program's query filters only on `domain = vpc`, so the
response may contain addresses of any network. -/
structure Address where
  allocationId : String
  associationId : Option String
  networkId : Option String
  deriving DecidableEq

/-- One entry of `response['Subnets']`. -/
structure Subnet where
  subnetId : String
  deriving DecidableEq

/-- One entry of a route table's `Associations` list; only the `Main`
flag is read. -/
structure RtAssociation where
  main : Bool
  deriving DecidableEq

/-- One entry of `response['RouteTables']`. -/
structure RouteTable where
  routeTableId : String
  associations : List RtAssociation
  deriving DecidableEq

/-- One entry of `response['InternetGateways']`. -/
structure InternetGateway where
  internetGatewayId : String
  deriving DecidableEq

/-- One entry of `response['SecurityGroups']`. -/
structure SecurityGroup where
  groupId : String
  groupName : String
  deriving DecidableEq

/-- The value of `int(os.environ.get('TTL_HOURS', 0))`: the variable is
unset (the call yields 0), set to a non-integer string (the call raises
ValueError), or set to an integer. -/
inductive TtlEnv where
  | unset
  | invalid
  | val (n : Int)
  deriving DecidableEq

/-- The environment variables read by the program, each `none` when
unset. -/
structure Env where
  cluster_name : Option String
  service_name : Option String
  ttl_hours : TtlEnv
  alb_arn : Option String
  config_bucket : Option String
  custom_domain : Option String
  certificate_arn : Option String
  vpc_id : Option String
  hosted_zone_id : Option String
  notification_email : Option String
  deriving DecidableEq

/-- Python truthiness of an optional string: unset and the empty string
are falsy. -/
def truthy : Option String → Bool
  | none => false
  | some s => !s.isEmpty

/-- The AWS SDK as a record of oracles: each field is the outcome of the
corresponding API call made by the program during one invocation
(responses are fixed per invocation, matching the single snapshot the
sequential program observes).  List-returning fields are the response
to the exact query the source issues — in particular
`describe_addresses` answers the query filtered only on
`domain = vpc`, and the other describe calls answer queries filtered on
the configured identifiers. -/
structure Cloud where
  describe_services : Except AwsErr (List Service)
  update_service : Except AwsErr Unit
  delete_service : Except AwsErr Unit
  delete_cluster : Except AwsErr Unit
  describe_tags : Except AwsErr (List TagDescription)
  describe_target_groups : Except AwsErr (List TargetGroup)
  delete_load_balancer : Except AwsErr Unit
  delete_target_group : String → Except AwsErr Unit
  list_objects_v2 : Except AwsErr ListObjectsResp
  delete_objects : List String → Except AwsErr Unit
  delete_bucket : Except AwsErr Unit
  list_resource_record_sets : Except AwsErr (List RecordSet)
  change_resource_record_sets : Except AwsErr Unit
  describe_certificate : Except AwsErr Unit
  delete_certificate : Except AwsErr Unit
  describe_vpcs : Except AwsErr (List Vpc)
  describe_nat_gateways : Except AwsErr (List NatGateway)
  delete_nat_gateway : String → Except AwsErr Unit
  describe_addresses : Except AwsErr (List Address)
  release_address : String → Except AwsErr Unit
  describe_subnets : Except AwsErr (List Subnet)
  delete_subnet : String → Except AwsErr Unit
  describe_route_tables : Except AwsErr (List RouteTable)
  delete_route_table : String → Except AwsErr Unit
  describe_internet_gateways : Except AwsErr (List InternetGateway)
  detach_internet_gateway : String → Except AwsErr Unit
  delete_internet_gateway : String → Except AwsErr Unit
  describe_security_groups : Except AwsErr (List SecurityGroup)
  delete_security_group : String → Except AwsErr Unit
  delete_vpc : Except AwsErr Unit

/-- Inner loop of `check_ttl_from_tags`: the first tag with key
`TTLExpiry` in one tag description. -/
def findTagIn : List Tag → Option TimeStr
  | [] => none
  | t :: rest => if t.key == "TTLExpiry" then some t.value else findTagIn rest

/-- Outer loop of `check_ttl_from_tags`: the first `TTLExpiry` tag over
all tag descriptions, in order. -/
def findTTLExpiry : List TagDescription → Option TimeStr
  | [] => none
  | td :: rest =>
    match findTagIn td.tags with
    | some v => some v
    | none => findTTLExpiry rest

/-- Embedding of `check_ttl_from_tags` (source lines 99-118): fallback
TTL check from the load balancer's `TTLExpiry` tag.  Any exception —
the describe call failing or the tag value failing to parse — is caught
and yields `false`. -/
def check_ttl_from_tags (env : Env) (cloud : Cloud) (now : Int) : Bool :=
  if !(truthy env.alb_arn) then false
  else
    match cloud.describe_tags with
    | .error _ => false
    | .ok tds =>
      match findTTLExpiry tds with
      | none => false
      | some .invalid => false
      | some (.utc t) => decide (now ≥ t)

/-- Embedding of `should_cleanup` (source lines 65-97).  `now` is
`datetime.now(timezone.utc)` in seconds; `createdAt + ttl_hours` becomes
`createdAt + 3600 * n`.  Any exception (TTL_HOURS failing to parse, the
describe call failing) is caught and yields `false`.  When the describe
succeeds with an empty service list the source returns `True`
("Service not found, assuming cleanup needed"). -/
def should_cleanup (env : Env) (cloud : Cloud) (now : Int) : Bool :=
  match env.ttl_hours with
  | .invalid => false
  | .unset => false
  | .val n =>
    if !(truthy env.cluster_name) || !(truthy env.service_name) || n == 0 then false
    else
      match cloud.describe_services with
      | .error _ => false
      | .ok [] => true
      | .ok (s :: _) =>
        match s.createdAt with
        | none => check_ttl_from_tags env cloud now
        | some c => decide (now ≥ c + 3600 * n)

/-- The platform calls the cleanup makes, in the order attempted; the
trace of one invocation is a `List Event`.  `describeServices` and
`listObjectVersions` are calls the cleanup sequence never issues; they
are part of the vocabulary so that the specification's claims about
polling and version enumeration can be stated. -/
inductive Event where
  | updateService
  | sleepSecs (n : Nat)
  | deleteService
  | deleteCluster
  | describeServices
  | describeTargetGroups
  | deleteLoadBalancer
  | deleteTargetGroup (arn : String)
  | listObjectsV2
  | listObjectVersions
  | deleteObjects (n : Nat)
  | deleteBucket
  | listRecordSets
  | changeRecordSets
  | acmDescribe
  | acmDelete
  | describeVpcs
  | describeNatGateways
  | deleteNatGateway (id : String)
  | describeAddresses
  | releaseAddress (id : String)
  | describeSubnets
  | deleteSubnet (id : String)
  | describeRouteTables
  | deleteRouteTable (id : String)
  | describeInternetGateways
  | detachInternetGateway (id : String)
  | deleteInternetGateway (id : String)
  | describeSecurityGroups
  | deleteSecurityGroup (id : String)
  | deleteVpc
  deriving DecidableEq

/-- A traced, fallible computation: its outcome plus the platform calls
it attempted (Python exceptions become the `Except` error). -/
abbrev ER (α : Type) := Except AwsErr α × List Event

/-- One platform call: the event is recorded whether or not the call
raises. -/
def call (ev : Event) (r : Except AwsErr α) : ER α := (r, [ev])

/-- A non-fallible recorded action (e.g. `time.sleep`). -/
def emit (ev : Event) : ER Unit := ((.ok ()), [ev])

/-- Sequencing with Python exception semantics: if `a` raises, `f` never
runs and contributes no events. -/
def bindE (a : ER α) (f : α → ER β) : ER β :=
  match a with
  | (.error e, t) => (.error e, t)
  | (.ok x, t) => let p := f x; (p.1, t ++ p.2)

/-- A Python `for` loop whose body may raise: stops at the first raise. -/
def forE (f : α → ER Unit) : List α → ER Unit
  | [] => ((.ok ()), [])
  | x :: xs => bindE (f x) (fun _ => forE f xs)

/-- Embedding of `cleanup_s3_bucket` (source lines 210-225): one
`list_objects_v2` call, one batch `delete_objects` when `Contents` is
present, then `delete_bucket`.  The function's own handler re-raises,
so errors propagate. -/
def cleanup_s3_bucket (cloud : Cloud) (bucket_name : String) : ER Unit :=
  bindE (call .listObjectsV2 cloud.list_objects_v2) (fun resp =>
    bindE
      (match resp.contents with
       | some objs => call (.deleteObjects objs.length) (cloud.delete_objects objs)
       | none => ((.ok ()), []))
      (fun _ => call .deleteBucket cloud.delete_bucket))

/-- `record['Name'].rstrip('.')`: remove trailing dots. -/
def rstripDot (s : String) : String :=
  String.mk ((s.data.reverse.dropWhile (fun c => c == '.')).reverse)

/-- Embedding of `cleanup_route53_records` (source lines 227-254):
returns silently when the hosted zone or domain is not configured;
otherwise deletes the matching alias A/AAAA records in one change
batch.  Errors propagate (the handler re-raises). -/
def cleanup_route53_records (env : Env) (cloud : Cloud) : ER Unit :=
  if !(truthy env.hosted_zone_id) || !(truthy env.custom_domain) then ((.ok ()), [])
  else
    bindE (call .listRecordSets cloud.list_resource_record_sets) (fun records =>
      let changes := records.filter (fun r =>
        rstripDot r.name == env.custom_domain.getD "" &&
        (r.rtype == "A" || r.rtype == "AAAA") && r.hasAliasTarget)
      if changes.isEmpty then ((.ok ()), [])
      else call .changeRecordSets cloud.change_resource_record_sets)

/-- Embedding of `cleanup_ssl_certificate` (source lines 256-272): the
inner handler swallows `ResourceNotFoundException` from either ACM
call ("Certificate already deleted"); the outer handler re-raises any
other error. -/
def cleanup_ssl_certificate (env : Env) (cloud : Cloud) : ER Unit :=
  if !(truthy env.certificate_arn) then ((.ok ()), [])
  else
    match cloud.describe_certificate with
    | .error .notFound => ((.ok ()), [.acmDescribe])
    | .error e => (.error e, [.acmDescribe])
    | .ok _ =>
      match cloud.delete_certificate with
      | .error .notFound => ((.ok ()), [.acmDescribe, .acmDelete])
      | .error e => (.error e, [.acmDescribe, .acmDelete])
      | .ok _ => ((.ok ()), [.acmDescribe, .acmDelete])

/-- The NAT-gateway loop of `cleanup_vpc_resources` (source lines
288-291): delete every gateway not already deleted/deleting; a raise
aborts the loop and propagates. -/
def deleteNatGateways (cloud : Cloud) (gws : List NatGateway) : ER Unit :=
  forE (fun gw =>
    if gw.state == "deleted" || gw.state == "deleting" then ((.ok ()), [])
    else call (.deleteNatGateway gw.natGatewayId) (cloud.delete_nat_gateway gw.natGatewayId)) gws

/-- The elastic-IP loop of `cleanup_vpc_resources` (source lines
302-308): release each address with no `AssociationId`; a failing
release is logged as a warning and swallowed, so the loop never
raises. -/
def releaseEips (cloud : Cloud) (addrs : List Address) : ER Unit :=
  forE (fun addr =>
    if addr.associationId.isNone then
      match cloud.release_address addr.allocationId with
      | .ok _ => ((.ok ()), [.releaseAddress addr.allocationId])
      | .error _ => ((.ok ()), [.releaseAddress addr.allocationId])
    else ((.ok ()), [])) addrs

/-- The internet-gateway loop of `cleanup_vpc_resources` (source lines
334-340): detach then delete each gateway; raises propagate. -/
def deleteIgws (cloud : Cloud) (igws : List InternetGateway) : ER Unit :=
  forE (fun igw =>
    bindE (call (.detachInternetGateway igw.internetGatewayId)
                (cloud.detach_internet_gateway igw.internetGatewayId))
      (fun _ => call (.deleteInternetGateway igw.internetGatewayId)
                     (cloud.delete_internet_gateway igw.internetGatewayId))) igws

/-- Embedding of `cleanup_vpc_resources` (source lines 274-358): returns
early when the VPC list is empty; otherwise NAT gateways, a fixed 60s
settle sleep, elastic IPs, subnets, non-main route tables, internet
gateways, non-default security groups, then the VPC itself.  Errors
propagate (the handler re-raises). -/
def cleanup_vpc_resources (cloud : Cloud) (vpc_id : String) : ER Unit :=
  bindE (call .describeVpcs cloud.describe_vpcs) (fun vpcs =>
    if vpcs.isEmpty then ((.ok ()), [])
    else
      bindE (call .describeNatGateways cloud.describe_nat_gateways) (fun gws =>
      bindE (deleteNatGateways cloud gws) (fun _ =>
      bindE (emit (.sleepSecs 60)) (fun _ =>
      bindE (call .describeAddresses cloud.describe_addresses) (fun addrs =>
      bindE (releaseEips cloud addrs) (fun _ =>
      bindE (call .describeSubnets cloud.describe_subnets) (fun subnets =>
      bindE (forE (fun sn => call (.deleteSubnet sn.subnetId) (cloud.delete_subnet sn.subnetId)) subnets) (fun _ =>
      bindE (call .describeRouteTables cloud.describe_route_tables) (fun rts =>
      bindE (forE (fun rt =>
               if rt.associations.any (fun a => a.main) then ((.ok ()), [])
               else call (.deleteRouteTable rt.routeTableId) (cloud.delete_route_table rt.routeTableId)) rts) (fun _ =>
      bindE (call .describeInternetGateways cloud.describe_internet_gateways) (fun igws =>
      bindE (deleteIgws cloud igws) (fun _ =>
      bindE (call .describeSecurityGroups cloud.describe_security_groups) (fun sgs =>
      bindE (forE (fun sg =>
               if sg.groupName == "default" then ((.ok ()), [])
               else call (.deleteSecurityGroup sg.groupId) (cloud.delete_security_group sg.groupId)) sgs) (fun _ =>
      call .deleteVpc cloud.delete_vpc))))))))))))))

/-- The dict built by `perform_cleanup` (source lines 122-131): exactly
the eight fixed resource keys, each initialised `False`, plus the
`error` key that is added only when a step raises (modelled as an
`Option`, `none` when the key is absent). -/
structure Results where
  ecs_service : Bool
  ecs_cluster : Bool
  load_balancer : Bool
  target_groups : Bool
  s3_bucket : Bool
  vpc_resources : Bool
  route53_records : Bool
  ssl_certificate : Bool
  error : Option String
  deriving DecidableEq

/-- The initial results dict: all eight flags `False`, no error key. -/
def initResults : Results :=
  ⟨false, false, false, false, false, false, false, false, none⟩

/-- State of the step sequence inside `perform_cleanup`'s `try` block:
whether it has raised, the results dict so far, and the trace so far. -/
abbrev PC := Except AwsErr Unit × Results × List Event

/-- Sequencing of steps with Python exception semantics: once a step
raises, later steps do not run, and the results and trace accumulated
so far are kept. -/
def stepBind (a : PC) (f : Results → PC) : PC :=
  match a with
  | (.error e, r, t) => (.error e, r, t)
  | (.ok _, r, t) => let p := f r; (p.1, p.2.1, t ++ p.2.2)

/-- Lift a traced sub-cleanup into a step: on success apply the results
update (set the step's flag), on a raise keep the results unchanged. -/
def liftStep (a : ER Unit) (upd : Results → Results) (r : Results) : PC :=
  match a with
  | (.error e, t) => (.error e, r, t)
  | (.ok _, t) => ((.ok ()), upd r, t)

/-- Step 1 of `perform_cleanup` (source lines 134-152): when cluster and
service are configured, scale to zero, `time.sleep(30)`, delete the
service (flag `ecs_service`), then delete the cluster (flag
`ecs_cluster`). -/
def step_ecs (env : Env) (cloud : Cloud) (r : Results) : PC :=
  if truthy env.cluster_name && truthy env.service_name then
    match bindE (call .updateService cloud.update_service) (fun _ =>
          bindE (emit (.sleepSecs 30)) (fun _ =>
          call .deleteService cloud.delete_service)) with
    | (.error e, t) => (.error e, r, t)
    | (.ok _, t) =>
      match call .deleteCluster cloud.delete_cluster with
      | (.error e, t2) => (.error e, { r with ecs_service := true }, t ++ t2)
      | (.ok _, t2) => ((.ok ()), { r with ecs_service := true, ecs_cluster := true }, t ++ t2)
  else ((.ok ()), r, [])

/-- The target groups attached to the configured load balancer (source
lines 161-164): those with a non-empty `LoadBalancerArns` list
containing the ALB's ARN. -/
def albTgs (alb : String) (tgs : List TargetGroup) : List String :=
  (tgs.filter (fun tg => !tg.loadBalancerArns.isEmpty && tg.loadBalancerArns.contains alb)).map
    (fun tg => tg.targetGroupArn)

/-- The target-group deletion loop (source lines 171-172). -/
def deleteTgs (cloud : Cloud) (arns : List String) : ER Unit :=
  forE (fun arn => call (.deleteTargetGroup arn) (cloud.delete_target_group arn)) arns

/-- Step 2 of `perform_cleanup` (source lines 154-174): when the ALB is
configured, list the target groups, delete the load balancer (flag
`load_balancer`), then delete each attached target group (flag
`target_groups` after the whole loop). -/
def step_lb (env : Env) (cloud : Cloud) (r : Results) : PC :=
  if truthy env.alb_arn then
    match call .describeTargetGroups cloud.describe_target_groups with
    | (.error e, t) => (.error e, r, t)
    | (.ok tgs, t) =>
      match call .deleteLoadBalancer cloud.delete_load_balancer with
      | (.error e, t2) => (.error e, r, t ++ t2)
      | (.ok _, t2) =>
        match deleteTgs cloud (albTgs (env.alb_arn.getD "") tgs) with
        | (.error e, t3) => (.error e, { r with load_balancer := true }, t ++ t2 ++ t3)
        | (.ok _, t3) =>
          ((.ok ()), { r with load_balancer := true, target_groups := true }, t ++ t2 ++ t3)
  else ((.ok ()), r, [])

/-- Step 3 of `perform_cleanup` (source lines 176-181): the S3 bucket. -/
def step_s3 (env : Env) (cloud : Cloud) (r : Results) : PC :=
  if truthy env.config_bucket then
    liftStep (cleanup_s3_bucket cloud (env.config_bucket.getD ""))
      (fun r => { r with s3_bucket := true }) r
  else ((.ok ()), r, [])

/-- Step 4 of `perform_cleanup` (source lines 183-187): Route53 records. -/
def step_route53 (env : Env) (cloud : Cloud) (r : Results) : PC :=
  if truthy env.custom_domain then
    liftStep (cleanup_route53_records env cloud)
      (fun r => { r with route53_records := true }) r
  else ((.ok ()), r, [])

/-- Step 5 of `perform_cleanup` (source lines 189-193): the SSL
certificate. -/
def step_ssl (env : Env) (cloud : Cloud) (r : Results) : PC :=
  if truthy env.certificate_arn then
    liftStep (cleanup_ssl_certificate env cloud)
      (fun r => { r with ssl_certificate := true }) r
  else ((.ok ()), r, [])

/-- Step 6 of `perform_cleanup` (source lines 195-200): the VPC. -/
def step_vpc (env : Env) (cloud : Cloud) (r : Results) : PC :=
  if truthy env.vpc_id then
    liftStep (cleanup_vpc_resources cloud (env.vpc_id.getD ""))
      (fun r => { r with vpc_resources := true }) r
  else ((.ok ()), r, [])

/-- The six steps of `perform_cleanup`'s `try` block in source order,
started from an arbitrary results dict. -/
def chainK (env : Env) (cloud : Cloud) (r : Results) : PC :=
  stepBind (step_ecs env cloud r) (fun r =>
  stepBind (step_lb env cloud r) (fun r =>
  stepBind (step_s3 env cloud r) (fun r =>
  stepBind (step_route53 env cloud r) (fun r =>
  stepBind (step_ssl env cloud r) (fun r =>
  step_vpc env cloud r)))))

/-- The `try` block of `perform_cleanup` run from the freshly
initialised results dict. -/
def perform_steps (env : Env) (cloud : Cloud) : PC :=
  chainK env cloud initResults

/-- Embedding of `perform_cleanup` (source lines 120-208): run the step
sequence; if it raised, record `str(e)` under the `error` key.  The
function itself never raises. -/
def perform_cleanup (env : Env) (cloud : Cloud) : Results × List Event :=
  match perform_steps env cloud with
  | (.error e, r, t) => ({ r with error := some e.msg }, t)
  | (.ok _, r, t) => (r, t)

/-- The body of the handler's HTTP-style response.  `errorBody` mirrors
the 500 branch of the source; in the embedding every callee of the
handler's `try` block is total, so that branch is unreachable. -/
inductive Body where
  | ttlNotExpired
  | cleanupResults (r : Results)
  | errorBody (msg : String)
  deriving DecidableEq

/-- The `{statusCode, body}` dict returned by the handler. -/
structure Response where
  statusCode : Nat
  body : Body
  deriving DecidableEq

/-- The Lambda invocation payload.  The source's `handler` receives it
but never reads it; it is modelled so that claims about a
`force_destroy` flag can be stated. -/
structure EventPayload where
  force_destroy : Bool
  deriving DecidableEq

/-- Embedding of `handler` (source lines 27-63): if the TTL has not
expired, return 200 with a skip message; otherwise run the cleanup and
return 200 with the results.  Notifications are fire-and-forget (their
own handlers swallow every error) and do not affect the response; the
`event` payload is never consulted. -/
def handler (env : Env) (cloud : Cloud) (now : Int) (event : EventPayload) : Response :=
  if !(should_cleanup env cloud now) then ⟨200, .ttlNotExpired⟩
  else ⟨200, .cleanupResults (perform_cleanup env cloud).1⟩

/-- Some event in the trace satisfies `p`. -/
def hasEv (p : Event → Bool) (t : List Event) : Bool := t.any p

/-- No event in the trace satisfies `p`. -/
def noEv (p : Event → Bool) (t : List Event) : Bool := t.all (fun e => !p e)

/-- No `p`-event occurs strictly after any `q`-event in the trace: every
`p`-event precedes every `q`-event. -/
def ordered (p q : Event → Bool) : List Event → Bool
  | [] => true
  | e :: rest => (if q e then noEv p rest else true) && ordered p q rest

/-- The events of the trace strictly between the first `p`-event and the
next `q`-event. -/
def segmentBetween (p q : Event → Bool) (t : List Event) : List Event :=
  ((t.dropWhile (fun e => !p e)).drop 1).takeWhile (fun e => !q e)

/-- Classifier: a NAT-gateway deletion. -/
def isNatGwDelete : Event → Bool
  | .deleteNatGateway _ => true
  | _ => false

/-- Classifier: the VPC deletion. -/
def isVpcDelete : Event → Bool
  | .deleteVpc => true
  | _ => false

/-- Classifier: a target-group deletion. -/
def isTgDelete : Event → Bool
  | .deleteTargetGroup _ => true
  | _ => false

/-- Classifier: the load-balancer deletion. -/
def isLbDelete : Event → Bool
  | .deleteLoadBalancer => true
  | _ => false

/-- Classifier: any sleep. -/
def isSleep : Event → Bool
  | .sleepSecs _ => true
  | _ => false

/-- Classifier: a poll of the compute service's state. -/
def isPollServices : Event → Bool
  | .describeServices => true
  | _ => false

/-- Classifier: an enumeration of object versions and delete markers. -/
def isListVersions : Event → Bool
  | .listObjectVersions => true
  | _ => false

/-- Classifier: a current-objects listing. -/
def isListObjects : Event → Bool
  | .listObjectsV2 => true
  | _ => false

/-- Classifier: the scale-to-zero call. -/
def isUpdateService : Event → Bool
  | .updateService => true
  | _ => false

/-- Classifier: the service deletion. -/
def isDeleteService : Event → Bool
  | .deleteService => true
  | _ => false

/-- Classifier: the release of one specific elastic IP. -/
def isReleaseOf (id : String) : Event → Bool
  | .releaseAddress j => j == id
  | _ => false

/-- Events the compute-service step can emit. -/
def isEcsEvent : Event → Bool
  | .updateService | .sleepSecs _ | .deleteService | .deleteCluster => true
  | _ => false

/-- Events the load-balancer step can emit. -/
def isLbEvent : Event → Bool
  | .describeTargetGroups | .deleteLoadBalancer | .deleteTargetGroup _ => true
  | _ => false

/-- Events the bucket step can emit. -/
def isS3Event : Event → Bool
  | .listObjectsV2 | .deleteObjects _ | .deleteBucket => true
  | _ => false

/-- Events the Route53 step can emit. -/
def isR53Event : Event → Bool
  | .listRecordSets | .changeRecordSets => true
  | _ => false

/-- Events the certificate step can emit. -/
def isAcmEvent : Event → Bool
  | .acmDescribe | .acmDelete => true
  | _ => false

/-- Events the network step can emit. -/
def isVpcEvent : Event → Bool
  | .describeVpcs | .describeNatGateways | .deleteNatGateway _ | .sleepSecs _
  | .describeAddresses | .releaseAddress _ | .describeSubnets | .deleteSubnet _
  | .describeRouteTables | .deleteRouteTable _ | .describeInternetGateways
  | .detachInternetGateway _ | .deleteInternetGateway _ | .describeSecurityGroups
  | .deleteSecurityGroup _ | .deleteVpc => true
  | _ => false

/-- A platform snapshot where every call succeeds and every listing is
empty. -/
def cloudOk : Cloud where
  describe_services := .ok []
  update_service := .ok ()
  delete_service := .ok ()
  delete_cluster := .ok ()
  describe_tags := .ok []
  describe_target_groups := .ok []
  delete_load_balancer := .ok ()
  delete_target_group := fun _ => .ok ()
  list_objects_v2 := .ok ⟨none, false⟩
  delete_objects := fun _ => .ok ()
  delete_bucket := .ok ()
  list_resource_record_sets := .ok []
  change_resource_record_sets := .ok ()
  describe_certificate := .ok ()
  delete_certificate := .ok ()
  describe_vpcs := .ok []
  describe_nat_gateways := .ok []
  delete_nat_gateway := fun _ => .ok ()
  describe_addresses := .ok []
  release_address := fun _ => .ok ()
  describe_subnets := .ok []
  delete_subnet := fun _ => .ok ()
  describe_route_tables := .ok []
  delete_route_table := fun _ => .ok ()
  describe_internet_gateways := .ok []
  detach_internet_gateway := fun _ => .ok ()
  delete_internet_gateway := fun _ => .ok ()
  describe_security_groups := .ok []
  delete_security_group := fun _ => .ok ()
  delete_vpc := .ok ()

/-- No environment variable set. -/
def envNone : Env := ⟨none, none, .unset, none, none, none, none, none, none, none⟩

/-- Cluster and service configured with a 10-hour TTL. -/
def env_c2 : Env := ⟨some "c", some "s", .val 10, none, none, none, none, none, none, none⟩

/-- The configured service exists and was created at instant 0. -/
def cloud_c2 : Cloud := { cloudOk with describe_services := .ok [⟨some 0⟩] }

/-- Spec's words for C2 (the claim under refutation): with
`force_destroy: true` in the payload, the handler bypasses the TTL
check and performs the full cleanup regardless of TTL state. -/
def spec_force_destroy_runs_cleanup (env : Env) (cloud : Cloud) (now : Int) : Prop :=
  ∃ r, handler env cloud now ⟨true⟩ = ⟨200, .cleanupResults r⟩

/-- Cluster and service configured with a 1-hour TTL. -/
def env_c3 : Env := ⟨some "c", some "s", .val 1, none, none, none, none, none, none, none⟩

/-- Spec's words for C3 (the claim under refutation): when the
configured compute service does not exist, no expiry instant is
resolvable, so `should_cleanup` returns false. -/
def spec_missing_service_no_cleanup (env : Env) (cloud : Cloud) (now : Int) : Prop :=
  cloud.describe_services = .ok [] → should_cleanup env cloud now = false

/-- Cluster and service configured, nothing else. -/
def env_c6 : Env := ⟨some "c", some "s", .unset, none, none, none, none, none, none, none⟩

/-- Spec's words for C6 (the claim under refutation): between scaling
the service to zero and deleting it, the step polls the service's state
(a bounded poll-until-drained wait). -/
def spec_drain_wait_polls (env : Env) (cloud : Cloud) : Prop :=
  hasEv isPollServices
    (segmentBetween isUpdateService isDeleteService (perform_cleanup env cloud).2) = true

/-- A bucket holding two current objects, with the listing truncated
(more pages exist that the program never fetches). -/
def cloud_c7 : Cloud := { cloudOk with list_objects_v2 := .ok ⟨some ["a", "b"], true⟩ }

/-- Spec's words for C7 (the claim under refutation): the bucket step
enumerates the bucket's object versions and delete markers before
deleting the bucket. -/
def spec_s3_enumerates_versions (cloud : Cloud) (b : String) : Prop :=
  hasEv isListVersions (cleanup_s3_bucket cloud b).2 = true

/-- An unassociated elastic IP belonging to another network. -/
def addr_c8 : Address := ⟨"eip-9", none, some "vpc-2"⟩

/-- The network vpc-1 exists; the account's only domain=vpc address
belongs to vpc-2. -/
def cloud_c8 : Cloud :=
  { cloudOk with describe_vpcs := .ok [⟨"vpc-1"⟩], describe_addresses := .ok [addr_c8] }

/-- Spec's words for C8 (the claim under refutation): the release loop
leaves addresses outside the given network untouched. -/
def spec_release_scoped (cloud : Cloud) (vpc : String) : Prop :=
  ∀ addrs, cloud.describe_addresses = .ok addrs →
    ∀ a ∈ addrs, a.networkId ≠ some vpc →
      noEv (isReleaseOf a.allocationId) (cleanup_vpc_resources cloud vpc).2 = true

/-- The compute-service deletion path ran to completion: the step was
configured and both the scale-down and the service delete succeeded. -/
def ecsServiceDone (env : Env) (cloud : Cloud) : Prop :=
  (truthy env.cluster_name && truthy env.service_name) = true ∧
  cloud.update_service = .ok () ∧ cloud.delete_service = .ok ()

/-- The cluster deletion path ran to completion. -/
def ecsClusterDone (env : Env) (cloud : Cloud) : Prop :=
  ecsServiceDone env cloud ∧ cloud.delete_cluster = .ok ()

/-- The load-balancer deletion path ran to completion. -/
def lbDeleteDone (env : Env) (cloud : Cloud) : Prop :=
  truthy env.alb_arn = true ∧ (∃ tgs, cloud.describe_target_groups = .ok tgs) ∧
  cloud.delete_load_balancer = .ok ()

/-- The target-group deletion loop ran to completion. -/
def tgsDone (env : Env) (cloud : Cloud) : Prop :=
  truthy env.alb_arn = true ∧ cloud.delete_load_balancer = .ok () ∧
  (∃ tgs, cloud.describe_target_groups = .ok tgs ∧
     (deleteTgs cloud (albTgs (env.alb_arn.getD "") tgs)).1 = .ok ())

/-- The bucket deletion path ran to completion. -/
def s3Done (env : Env) (cloud : Cloud) : Prop :=
  truthy env.config_bucket = true ∧
  (cleanup_s3_bucket cloud (env.config_bucket.getD "")).1 = .ok ()

/-- The Route53 deletion path ran to completion. -/
def r53Done (env : Env) (cloud : Cloud) : Prop :=
  truthy env.custom_domain = true ∧ (cleanup_route53_records env cloud).1 = .ok ()

/-- The certificate deletion path ran to completion. -/
def sslDone (env : Env) (cloud : Cloud) : Prop :=
  truthy env.certificate_arn = true ∧ (cleanup_ssl_certificate env cloud).1 = .ok ()

/-- The network deletion path ran to completion. -/
def vpcDone (env : Env) (cloud : Cloud) : Prop :=
  truthy env.vpc_id = true ∧ (cleanup_vpc_resources cloud (env.vpc_id.getD "")).1 = .ok ()

/-- Bucket configured, nothing else; the platform coöperates. -/
def env_c10 : Env := ⟨none, none, .unset, none, some "bkt", none, none, none, none, none⟩

/-- ALB, bucket and VPC configured. -/
def env_c1 : Env :=
  ⟨none, none, .unset, some "alb", some "bkt", none, none, some "vpc-1", none, none⟩

/-- The load-balancer delete fails with a non-not-found platform
error; everything else would succeed. -/
def cloud_c1 : Cloud := { cloudOk with delete_load_balancer := .error (.other "AccessDenied") }

/-- Spec's words for C1 (the claim under refutation): if the
load-balancer delete step fails, the subsequent steps still execute —
in particular the bucket step's listing call still appears in the
trace. -/
def spec_lb_failure_continues (env : Env) (cloud : Cloud) : Prop :=
  (∃ e, cloud.delete_load_balancer = .error e) →
  truthy env.config_bucket = true →
  hasEv isListObjects (perform_cleanup env cloud).2 = true

/-- Bucket configured, nothing else. -/
def env_c4 : Env := ⟨none, none, .unset, none, some "bkt", none, none, none, none, none⟩

/-- The bucket is already gone: its listing call reports not-found. -/
def cloud_c4 : Cloud := { cloudOk with list_objects_v2 := .error .notFound }

/-- Certificate configured, nothing else. -/
def env_c4ssl : Env := ⟨none, none, .unset, none, none, none, some "cert-arn", none, none, none⟩

/-- The certificate is already gone: describe reports not-found. -/
def cloud_c4ssl : Cloud := { cloudOk with describe_certificate := .error .notFound }

/-- Spec's words for C4 (the claim under refutation): an
already-absent target is never recorded as a failure, so a second
invocation on an emptied stack yields an error-free report. -/
def spec_notfound_never_failed (env : Env) (cloud : Cloud) : Prop :=
  cloud.list_objects_v2 = .error .notFound → (perform_cleanup env cloud).1.error = none

lemma noEv_nil (p : Event → Bool) : noEv p [] = true := rfl

lemma noEv_append (p : Event → Bool) (a b : List Event) :
    noEv p (a ++ b) = (noEv p a && noEv p b) := by
  simp [noEv, List.all_append]

lemma hasEv_append (p : Event → Bool) (a b : List Event) :
    hasEv p (a ++ b) = (hasEv p a || hasEv p b) := by
  simp [hasEv, List.any_append]

lemma ordered_nil (p q : Event → Bool) : ordered p q [] = true := rfl

lemma ordered_of_noEv_q (p q : Event → Bool) (t : List Event)
    (h : noEv q t = true) : ordered p q t = true := by
  induction t with
  | nil => rfl
  | cons e rest ih =>
    simp only [noEv, List.all_cons, Bool.and_eq_true, Bool.not_eq_true'] at h
    simp [ordered, h.1, ih (by simpa [noEv] using h.2)]

lemma ordered_of_noEv_p (p q : Event → Bool) (t : List Event)
    (h : noEv p t = true) : ordered p q t = true := by
  induction t with
  | nil => rfl
  | cons e rest ih =>
    simp only [noEv, List.all_cons, Bool.and_eq_true, Bool.not_eq_true'] at h
    have hrest : noEv p rest = true := by simpa [noEv] using h.2
    simp only [ordered, Bool.and_eq_true]
    refine ⟨?_, ih hrest⟩
    split
    · exact hrest
    · rfl

lemma ordered_append_noq (p q : Event → Bool) (a b : List Event)
    (h1 : noEv q a = true) (h2 : ordered p q b = true) :
    ordered p q (a ++ b) = true := by
  induction a with
  | nil => simpa using h2
  | cons e rest ih =>
    simp only [noEv, List.all_cons, Bool.and_eq_true, Bool.not_eq_true'] at h1
    simp only [List.cons_append, ordered, Bool.and_eq_true]
    exact ⟨by simp [h1.1], ih (by simpa [noEv] using h1.2)⟩

lemma ordered_append_nop (p q : Event → Bool) (a b : List Event)
    (h1 : ordered p q a = true) (h2 : noEv p b = true) :
    ordered p q (a ++ b) = true := by
  induction a with
  | nil => exact ordered_of_noEv_p p q b h2
  | cons e rest ih =>
    simp only [ordered, Bool.and_eq_true] at h1
    simp only [List.cons_append, ordered, Bool.and_eq_true]
    refine ⟨?_, ih h1.2⟩
    rcases h1 with ⟨hcond, _⟩
    split
    · rename_i hq
      rw [if_pos hq] at hcond
      have hres : noEv p (rest ++ b) = true := by rw [noEv_append, hcond, h2]; rfl
      exact hres
    · rfl

lemma noEv_bindE (p : Event → Bool) (a : ER α) (f : α → ER β)
    (h1 : noEv p a.2 = true) (h2 : ∀ x, noEv p (f x).2 = true) :
    noEv p (bindE a f).2 = true := by
  rcases a with ⟨res, t⟩
  cases res with
  | error e => simpa [bindE] using h1
  | ok x => simp only [bindE]; rw [noEv_append]; simp_all

lemma ordered_bindE_noq (p q : Event → Bool) (a : ER α) (f : α → ER β)
    (h1 : noEv q a.2 = true) (h2 : ∀ x, ordered p q (f x).2 = true) :
    ordered p q (bindE a f).2 = true := by
  rcases a with ⟨res, t⟩
  cases res with
  | error e => exact ordered_of_noEv_q p q t h1
  | ok x => simp only [bindE]; exact ordered_append_noq p q _ _ h1 (h2 x)

lemma noEv_forE (p : Event → Bool) (f : α → ER Unit)
    (h : ∀ x, noEv p (f x).2 = true) :
    ∀ l : List α, noEv p (forE f l).2 = true := by
  intro l
  induction l with
  | nil => rfl
  | cons x xs ih => exact noEv_bindE p _ _ (h x) (fun _ => ih)

lemma ordered_forE_noq (p q : Event → Bool) (f : α → ER Unit)
    (h : ∀ x, noEv q (f x).2 = true) :
    ∀ l : List α, ordered p q (forE f l).2 = true := by
  intro l
  induction l with
  | nil => rfl
  | cons x xs ih => exact ordered_bindE_noq p q _ _ (h x) (fun _ => ih)

lemma noEv_stepBind (p : Event → Bool) (a : PC) (f : Results → PC)
    (h1 : noEv p a.2.2 = true) (h2 : ∀ r, noEv p (f r).2.2 = true) :
    noEv p (stepBind a f).2.2 = true := by
  rcases a with ⟨res, r, t⟩
  cases res with
  | error e => simpa [stepBind] using h1
  | ok x => simp only [stepBind]; rw [noEv_append]; simp_all

lemma ordered_stepBind_noq (p q : Event → Bool) (a : PC) (f : Results → PC)
    (h1 : noEv q a.2.2 = true) (h2 : ∀ r, ordered p q (f r).2.2 = true) :
    ordered p q (stepBind a f).2.2 = true := by
  rcases a with ⟨res, r, t⟩
  cases res with
  | error e => exact ordered_of_noEv_q p q t h1
  | ok x => simp only [stepBind]; exact ordered_append_noq p q _ _ h1 (h2 _)

lemma ordered_stepBind_nop (p q : Event → Bool) (a : PC) (f : Results → PC)
    (h1 : ordered p q a.2.2 = true) (h2 : ∀ r, noEv p (f r).2.2 = true) :
    ordered p q (stepBind a f).2.2 = true := by
  rcases a with ⟨res, r, t⟩
  cases res with
  | error e => simpa [stepBind] using h1
  | ok x => simp only [stepBind]; exact ordered_append_nop p q _ _ h1 (h2 _)

lemma liftStep_trace (a : ER Unit) (upd : Results → Results) (r : Results) :
    (liftStep a upd r).2.2 = a.2 := by
  rcases a with ⟨res, t⟩
  cases res <;> rfl

lemma perform_cleanup_trace (env : Env) (cloud : Cloud) :
    (perform_cleanup env cloud).2 = (perform_steps env cloud).2.2 := by
  unfold perform_cleanup
  rcases h : perform_steps env cloud with ⟨res, r, t⟩
  cases res <;> simp

lemma all_bindE (k : Event → Bool) (a : ER α) (f : α → ER β)
    (h1 : a.2.all k = true) (h2 : ∀ x, ((f x).2).all k = true) :
    ((bindE a f).2).all k = true := by
  rcases a with ⟨res, t⟩
  cases res with
  | error e => simpa [bindE] using h1
  | ok x => simp only [bindE]; rw [List.all_append, h1, h2 x]; rfl

lemma all_forE (k : Event → Bool) (f : α → ER Unit)
    (h : ∀ x, ((f x).2).all k = true) :
    ∀ l : List α, ((forE f l).2).all k = true := by
  intro l
  induction l with
  | nil => rfl
  | cons x xs ih => exact all_bindE k _ _ (h x) (fun _ => ih)

lemma noEv_of_all (k p : Event → Bool) (himp : ∀ e, k e = true → p e = false)
    (t : List Event) (h : t.all k = true) : noEv p t = true := by
  rw [List.all_eq_true] at h
  rw [noEv, List.all_eq_true]
  intro e he
  simp [himp e (h e he)]

lemma step_ecs_all (env : Env) (cloud : Cloud) (r : Results) :
    ((step_ecs env cloud r).2.2).all isEcsEvent = true := by
  unfold step_ecs
  split
  · cases h1 : cloud.update_service <;> cases h2 : cloud.delete_service <;>
      cases h3 : cloud.delete_cluster <;>
        simp [bindE, call, emit, h1, h2, h3, isEcsEvent]
  · rfl

lemma deleteTgs_all (cloud : Cloud) (arns : List String) :
    ((deleteTgs cloud arns).2).all isLbEvent = true := by
  unfold deleteTgs
  apply all_forE
  intro arn
  simp [call, isLbEvent]

lemma step_lb_all (env : Env) (cloud : Cloud) (r : Results) :
    ((step_lb env cloud r).2.2).all isLbEvent = true := by
  unfold step_lb
  split
  · cases h1 : cloud.describe_target_groups with
    | error e => simp [call, isLbEvent]
    | ok tgs =>
      cases h2 : cloud.delete_load_balancer with
      | error e => simp [call, isLbEvent]
      | ok u =>
        rcases h3 : deleteTgs cloud (albTgs (env.alb_arn.getD "") tgs) with ⟨res3, t3⟩
        have ht3 : t3.all isLbEvent = true := by
          have := deleteTgs_all cloud (albTgs (env.alb_arn.getD "") tgs)
          rw [h3] at this
          exact this
        cases res3 <;> simp [call, isLbEvent, h3, ht3]
  · rfl

lemma cleanup_s3_all (cloud : Cloud) (b : String) :
    ((cleanup_s3_bucket cloud b).2).all isS3Event = true := by
  unfold cleanup_s3_bucket
  apply all_bindE
  · simp [call, isS3Event]
  intro resp
  apply all_bindE
  · rcases resp.contents with _ | objs <;> simp [call, isS3Event]
  intro u
  simp [call, isS3Event]

lemma cleanup_route53_all (env : Env) (cloud : Cloud) :
    ((cleanup_route53_records env cloud).2).all isR53Event = true := by
  unfold cleanup_route53_records
  split
  · rfl
  · apply all_bindE
    · simp [call, isR53Event]
    intro records
    dsimp only
    split
    · rfl
    · simp [call, isR53Event]

lemma cleanup_ssl_all (env : Env) (cloud : Cloud) :
    ((cleanup_ssl_certificate env cloud).2).all isAcmEvent = true := by
  unfold cleanup_ssl_certificate
  split
  · rfl
  · cases h1 : cloud.describe_certificate with
    | error e => cases e <;> simp [isAcmEvent]
    | ok u => cases h2 : cloud.delete_certificate with
      | error e => cases e <;> simp [isAcmEvent]
      | ok u2 => simp [isAcmEvent]

lemma deleteNatGateways_all (cloud : Cloud) (gws : List NatGateway) :
    ((deleteNatGateways cloud gws).2).all isVpcEvent = true := by
  unfold deleteNatGateways
  apply all_forE
  intro gw
  split
  · rfl
  · simp [call, isVpcEvent]

lemma releaseEips_all (cloud : Cloud) (addrs : List Address) :
    ((releaseEips cloud addrs).2).all isVpcEvent = true := by
  unfold releaseEips
  apply all_forE
  intro addr
  split
  · cases cloud.release_address addr.allocationId <;> simp [isVpcEvent]
  · rfl

lemma deleteIgws_all (cloud : Cloud) (igws : List InternetGateway) :
    ((deleteIgws cloud igws).2).all isVpcEvent = true := by
  unfold deleteIgws
  apply all_forE
  intro igw
  apply all_bindE
  · simp [call, isVpcEvent]
  intro u
  simp [call, isVpcEvent]

lemma cleanup_vpc_all (cloud : Cloud) (v : String) :
    ((cleanup_vpc_resources cloud v).2).all isVpcEvent = true := by
  unfold cleanup_vpc_resources
  apply all_bindE
  · simp [call, isVpcEvent]
  intro vpcs
  split
  · rfl
  apply all_bindE
  · simp [call, isVpcEvent]
  intro gws
  apply all_bindE
  · exact deleteNatGateways_all cloud gws
  intro u
  apply all_bindE
  · simp [emit, isVpcEvent]
  intro u
  apply all_bindE
  · simp [call, isVpcEvent]
  intro addrs
  apply all_bindE
  · exact releaseEips_all cloud addrs
  intro u
  apply all_bindE
  · simp [call, isVpcEvent]
  intro subnets
  apply all_bindE
  · apply all_forE
    intro sn
    simp [call, isVpcEvent]
  intro u
  apply all_bindE
  · simp [call, isVpcEvent]
  intro rts
  apply all_bindE
  · apply all_forE
    intro rt
    split
    · rfl
    · simp [call, isVpcEvent]
  intro u
  apply all_bindE
  · simp [call, isVpcEvent]
  intro igws
  apply all_bindE
  · exact deleteIgws_all cloud igws
  intro u
  apply all_bindE
  · simp [call, isVpcEvent]
  intro sgs
  apply all_bindE
  · apply all_forE
    intro sg
    split
    · rfl
    · simp [call, isVpcEvent]
  intro u
  simp [call, isVpcEvent]

lemma step_s3_all (env : Env) (cloud : Cloud) (r : Results) :
    ((step_s3 env cloud r).2.2).all isS3Event = true := by
  unfold step_s3
  split
  · rw [liftStep_trace]
    exact cleanup_s3_all cloud _
  · rfl

lemma step_route53_all (env : Env) (cloud : Cloud) (r : Results) :
    ((step_route53 env cloud r).2.2).all isR53Event = true := by
  unfold step_route53
  split
  · rw [liftStep_trace]
    exact cleanup_route53_all env cloud
  · rfl

lemma step_ssl_all (env : Env) (cloud : Cloud) (r : Results) :
    ((step_ssl env cloud r).2.2).all isAcmEvent = true := by
  unfold step_ssl
  split
  · rw [liftStep_trace]
    exact cleanup_ssl_all env cloud
  · rfl

lemma step_vpc_all (env : Env) (cloud : Cloud) (r : Results) :
    ((step_vpc env cloud r).2.2).all isVpcEvent = true := by
  unfold step_vpc
  split
  · rw [liftStep_trace]
    exact cleanup_vpc_all cloud _
  · rfl

lemma ordered_cons_notq (p q : Event → Bool) (e : Event) (t : List Event)
    (h : q e = false) : ordered p q (e :: t) = ordered p q t := by
  simp [ordered, h]

lemma ecs_not_vpcdel : ∀ e, isEcsEvent e = true → isVpcDelete e = false := by
  intro e h
  cases e <;> simp_all [isEcsEvent, isVpcDelete]

lemma lb_not_vpcdel : ∀ e, isLbEvent e = true → isVpcDelete e = false := by
  intro e h
  cases e <;> simp_all [isLbEvent, isVpcDelete]

lemma s3_not_vpcdel : ∀ e, isS3Event e = true → isVpcDelete e = false := by
  intro e h
  cases e <;> simp_all [isS3Event, isVpcDelete]

lemma r53_not_vpcdel : ∀ e, isR53Event e = true → isVpcDelete e = false := by
  intro e h
  cases e <;> simp_all [isR53Event, isVpcDelete]

lemma acm_not_vpcdel : ∀ e, isAcmEvent e = true → isVpcDelete e = false := by
  intro e h
  cases e <;> simp_all [isAcmEvent, isVpcDelete]

lemma ecs_not_tgdel : ∀ e, isEcsEvent e = true → isTgDelete e = false := by
  intro e h
  cases e <;> simp_all [isEcsEvent, isTgDelete]

lemma s3_not_lbdel : ∀ e, isS3Event e = true → isLbDelete e = false := by
  intro e h
  cases e <;> simp_all [isS3Event, isLbDelete]

lemma r53_not_lbdel : ∀ e, isR53Event e = true → isLbDelete e = false := by
  intro e h
  cases e <;> simp_all [isR53Event, isLbDelete]

lemma acm_not_lbdel : ∀ e, isAcmEvent e = true → isLbDelete e = false := by
  intro e h
  cases e <;> simp_all [isAcmEvent, isLbDelete]

lemma vpc_not_lbdel : ∀ e, isVpcEvent e = true → isLbDelete e = false := by
  intro e h
  cases e <;> simp_all [isVpcEvent, isLbDelete]

lemma ecs_not_listobj : ∀ e, isEcsEvent e = true → isListObjects e = false := by
  intro e h
  cases e <;> simp_all [isEcsEvent, isListObjects]

lemma lb_not_listobj : ∀ e, isLbEvent e = true → isListObjects e = false := by
  intro e h
  cases e <;> simp_all [isLbEvent, isListObjects]

lemma deleteNatGateways_noVpcDel (cloud : Cloud) (gws : List NatGateway) :
    noEv isVpcDelete (deleteNatGateways cloud gws).2 = true := by
  unfold deleteNatGateways
  apply noEv_forE
  intro gw
  split
  · rfl
  · rfl

lemma releaseEips_noVpcDel (cloud : Cloud) (addrs : List Address) :
    noEv isVpcDelete (releaseEips cloud addrs).2 = true := by
  unfold releaseEips
  apply noEv_forE
  intro addr
  split
  · cases cloud.release_address addr.allocationId <;> rfl
  · rfl

lemma deleteIgws_noVpcDel (cloud : Cloud) (igws : List InternetGateway) :
    noEv isVpcDelete (deleteIgws cloud igws).2 = true := by
  unfold deleteIgws
  apply noEv_forE
  intro igw
  apply noEv_bindE
  · rfl
  intro u
  rfl

/-- Inside the network teardown, the VPC delete is the last call: no
event at all — in particular no NAT-gateway delete and no settle
sleep — occurs after it. -/
lemma vpcdel_last_vpcfun (p : Event → Bool) (cloud : Cloud) (v : String) :
    ordered p isVpcDelete (cleanup_vpc_resources cloud v).2 = true := by
  unfold cleanup_vpc_resources
  apply ordered_bindE_noq
  · rfl
  intro vpcs
  split
  · rfl
  apply ordered_bindE_noq
  · rfl
  intro gws
  apply ordered_bindE_noq
  · exact deleteNatGateways_noVpcDel cloud gws
  intro u
  apply ordered_bindE_noq
  · rfl
  intro u
  apply ordered_bindE_noq
  · rfl
  intro addrs
  apply ordered_bindE_noq
  · exact releaseEips_noVpcDel cloud addrs
  intro u
  apply ordered_bindE_noq
  · rfl
  intro subnets
  apply ordered_bindE_noq
  · apply noEv_forE
    intro sn
    rfl
  intro u
  apply ordered_bindE_noq
  · rfl
  intro rts
  apply ordered_bindE_noq
  · apply noEv_forE
    intro rt
    split
    · rfl
    · rfl
  intro u
  apply ordered_bindE_noq
  · rfl
  intro igws
  apply ordered_bindE_noq
  · exact deleteIgws_noVpcDel cloud igws
  intro u
  apply ordered_bindE_noq
  · rfl
  intro sgs
  apply ordered_bindE_noq
  · apply noEv_forE
    intro sg
    split
    · rfl
    · rfl
  intro u
  simp [call, ordered, noEv]

lemma step_vpc_ordered (p : Event → Bool) (env : Env) (cloud : Cloud) (r : Results) :
    ordered p isVpcDelete (step_vpc env cloud r).2.2 = true := by
  unfold step_vpc
  split
  · rw [liftStep_trace]
    exact vpcdel_last_vpcfun p cloud _
  · rfl

/-- Across the whole cleanup, no event follows the VPC delete for the
purposes of ordering: any class of events precedes it. -/
lemma vpcdel_last_perform (p : Event → Bool) (env : Env) (cloud : Cloud) :
    ordered p isVpcDelete (perform_steps env cloud).2.2 = true := by
  unfold perform_steps chainK
  apply ordered_stepBind_noq
  · exact noEv_of_all isEcsEvent isVpcDelete ecs_not_vpcdel _ (step_ecs_all env cloud _)
  intro r1
  apply ordered_stepBind_noq
  · exact noEv_of_all isLbEvent isVpcDelete lb_not_vpcdel _ (step_lb_all env cloud r1)
  intro r2
  apply ordered_stepBind_noq
  · exact noEv_of_all isS3Event isVpcDelete s3_not_vpcdel _ (step_s3_all env cloud r2)
  intro r3
  apply ordered_stepBind_noq
  · exact noEv_of_all isR53Event isVpcDelete r53_not_vpcdel _ (step_route53_all env cloud r3)
  intro r4
  apply ordered_stepBind_noq
  · exact noEv_of_all isAcmEvent isVpcDelete acm_not_vpcdel _ (step_ssl_all env cloud r4)
  intro r5
  exact step_vpc_ordered p env cloud r5

lemma deleteTgs_noLbDel (cloud : Cloud) (arns : List String) :
    noEv isLbDelete (deleteTgs cloud arns).2 = true := by
  unfold deleteTgs
  apply noEv_forE
  intro arn
  rfl

/-- Within the load-balancer step the load balancer is deleted before
any target group. -/
lemma step_lb_ordered (env : Env) (cloud : Cloud) (r : Results) :
    ordered isLbDelete isTgDelete (step_lb env cloud r).2.2 = true := by
  unfold step_lb
  split
  · cases h1 : cloud.describe_target_groups with
    | error e => rfl
    | ok tgs =>
      cases h2 : cloud.delete_load_balancer with
      | error e => rfl
      | ok u =>
        rcases h3 : deleteTgs cloud (albTgs (env.alb_arn.getD "") tgs) with ⟨res3, t3⟩
        have ht3 : noEv isLbDelete t3 = true := by
          have := deleteTgs_noLbDel cloud (albTgs (env.alb_arn.getD "") tgs)
          rw [h3] at this
          exact this
        have hgoal : ordered isLbDelete isTgDelete
            (Event.describeTargetGroups :: Event.deleteLoadBalancer :: t3) = true := by
          rw [ordered_cons_notq _ _ _ _ rfl, ordered_cons_notq _ _ _ _ rfl]
          exact ordered_of_noEv_p _ _ t3 ht3
        dsimp only [call]
        rw [h3]
        cases res3 <;> simpa using hgoal
  · rfl

/-- Across the whole cleanup, every target-group deletion comes after
the load-balancer deletion. -/
lemma perform_lb_before_tg (env : Env) (cloud : Cloud) :
    ordered isLbDelete isTgDelete (perform_steps env cloud).2.2 = true := by
  unfold perform_steps chainK
  apply ordered_stepBind_noq
  · exact noEv_of_all isEcsEvent isTgDelete ecs_not_tgdel _ (step_ecs_all env cloud _)
  intro r1
  apply ordered_stepBind_nop
  · exact step_lb_ordered env cloud r1
  intro r2
  apply noEv_stepBind
  · exact noEv_of_all isS3Event isLbDelete s3_not_lbdel _ (step_s3_all env cloud r2)
  intro r3
  apply noEv_stepBind
  · exact noEv_of_all isR53Event isLbDelete r53_not_lbdel _ (step_route53_all env cloud r3)
  intro r4
  apply noEv_stepBind
  · exact noEv_of_all isAcmEvent isLbDelete acm_not_lbdel _ (step_ssl_all env cloud r4)
  intro r5
  exact noEv_of_all isVpcEvent isLbDelete vpc_not_lbdel _ (step_vpc_all env cloud r5)

/-- C5: in every trace produced by `perform_cleanup`, every NAT-gateway
deletion and every settle sleep precedes the VPC delete, and no
target-group deletion precedes the load-balancer deletion. -/
theorem C5_dependency_order (env : Env) (cloud : Cloud) :
    ordered isNatGwDelete isVpcDelete (perform_cleanup env cloud).2 = true ∧
    ordered isSleep isVpcDelete (perform_cleanup env cloud).2 = true ∧
    ordered isLbDelete isTgDelete (perform_cleanup env cloud).2 = true := by
  rw [perform_cleanup_trace]
  exact ⟨vpcdel_last_perform isNatGwDelete env cloud,
         vpcdel_last_perform isSleep env cloud,
         perform_lb_before_tg env cloud⟩

/-- C9: for every environment, platform state, clock and payload, the
trigger handler is total and returns a response whose statusCode is 200
or 500 (in the embedding every callee of its `try` block is total, so
the 200 branches are the ones reached). -/
theorem C9_handler_total (env : Env) (cloud : Cloud) (now : Int) (event : EventPayload) :
    (handler env cloud now event).statusCode = 200 ∨
    (handler env cloud now event).statusCode = 500 := by
  unfold handler
  split <;> exact Or.inl rfl

/-- C2 counterexample: at instant 1000, with a 10-hour TTL on a service
created at instant 0, the TTL has not expired; a `force_destroy: true`
payload does not make the handler run the cleanup — the payload is
never read. -/
theorem C2_counterexample :
    should_cleanup env_c2 cloud_c2 1000 = false ∧
    ¬ spec_force_destroy_runs_cleanup env_c2 cloud_c2 1000 := by
  constructor
  · decide
  · rintro ⟨r, h⟩
    have h0 : handler env_c2 cloud_c2 1000 ⟨true⟩ = (⟨200, Body.ttlNotExpired⟩ : Response) := rfl
    rw [h0] at h
    simp at h

/-- C2 corrected: the handler never reads the invocation payload, so
`force_destroy` (or any other payload field) has no effect on the
response. -/
theorem C2_payload_ignored (env : Env) (cloud : Cloud) (now : Int) (p1 p2 : EventPayload) :
    handler env cloud now p1 = handler env cloud now p2 := rfl

/-- C3 counterexample: when the describe call succeeds with an empty
service list, the source returns True ("Service not found, assuming
cleanup needed"), not false. -/
theorem C3_counterexample : ¬ spec_missing_service_no_cleanup env_c3 cloudOk 0 := by
  intro h
  exact absurd (h rfl) (by decide)

/-- C3 corrected: with no resolvable expiry — TTL setting unset, zero or
unparseable, cluster or service name not configured, the describe call
failing, or the service descriptor lacking a creation time while the
tag fallback also resolves nothing — `should_cleanup` returns false;
the one exception (forced by the counterexample) is a successful
describe with an empty service list, where it returns true. -/
theorem C3_no_expiry_false (env : Env) (cloud : Cloud) (now : Int)
    (h : env.ttl_hours = .invalid ∨ env.ttl_hours = .unset ∨ env.ttl_hours = .val 0 ∨
         truthy env.cluster_name = false ∨ truthy env.service_name = false ∨
         (∃ e, cloud.describe_services = .error e) ∨
         (∃ s rest, cloud.describe_services = .ok (s :: rest) ∧ s.createdAt = none ∧
            (truthy env.alb_arn = false ∨ (∃ e, cloud.describe_tags = .error e) ∨
             (∃ tds, cloud.describe_tags = .ok tds ∧
                (findTTLExpiry tds = none ∨ findTTLExpiry tds = some .invalid))))) :
    should_cleanup env cloud now = false := by
  rcases h with h | h | h | h | h | ⟨e, he⟩ | ⟨s, rest, hd, hc, htag⟩
  · simp [should_cleanup, h]
  · simp [should_cleanup, h]
  · simp [should_cleanup, h]
  · cases hth : env.ttl_hours with
    | invalid => simp [should_cleanup, hth]
    | unset => simp [should_cleanup, hth]
    | val n => simp [should_cleanup, hth, h]
  · cases hth : env.ttl_hours with
    | invalid => simp [should_cleanup, hth]
    | unset => simp [should_cleanup, hth]
    | val n => simp [should_cleanup, hth, h]
  · cases hth : env.ttl_hours with
    | invalid => simp [should_cleanup, hth]
    | unset => simp [should_cleanup, hth]
    | val n =>
      unfold should_cleanup
      simp only [hth]
      split
      · rfl
      · simp [he]
  · cases hth : env.ttl_hours with
    | invalid => simp [should_cleanup, hth]
    | unset => simp [should_cleanup, hth]
    | val n =>
      have htags : check_ttl_from_tags env cloud now = false := by
        rcases htag with h | ⟨e, he⟩ | ⟨tds, htds, hf⟩
        · simp [check_ttl_from_tags, h]
        · unfold check_ttl_from_tags
          split
          · rfl
          · simp [he]
        · unfold check_ttl_from_tags
          split
          · rfl
          · rcases hf with hf | hf <;> simp [htds, hf]
      unfold should_cleanup
      simp only [hth]
      split
      · rfl
      · simp [hd, hc, htags]

/-- C3 amended-claim witness: no TTL is configured at all, so
`should_cleanup` is false. -/
theorem C3_no_expiry_false_witness : should_cleanup envNone cloudOk 0 = false :=
  C3_no_expiry_false envNone cloudOk 0 (Or.inr (Or.inl rfl))

/-- C6 counterexample: the compute step runs (the scale-to-zero and the
service delete both occur), yet no service-state poll happens anywhere
in the trace — the wait is a fixed sleep. -/
theorem C6_counterexample :
    hasEv isUpdateService (perform_cleanup env_c6 cloudOk).2 = true ∧
    hasEv isDeleteService (perform_cleanup env_c6 cloudOk).2 = true ∧
    ¬ spec_drain_wait_polls env_c6 cloudOk := by
  refine ⟨by decide, by decide, ?_⟩
  intro h
  have h2 : hasEv isPollServices
      (segmentBetween isUpdateService isDeleteService (perform_cleanup env_c6 cloudOk).2) = true := h
  exact absurd h2 (by decide)

/-- C6 corrected: when cluster and service are configured, the compute
step's trace is exactly a prefix of scale-to-zero, a fixed 30-second
sleep (no polling, no attempt bound), service delete, cluster delete —
truncated at the first raise. -/
theorem C6_fixed_sleep_sequence (env : Env) (cloud : Cloud) (r : Results)
    (h : (truthy env.cluster_name && truthy env.service_name) = true) :
    (step_ecs env cloud r).2.2 = [.updateService] ∨
    (step_ecs env cloud r).2.2 = [.updateService, .sleepSecs 30, .deleteService] ∨
    (step_ecs env cloud r).2.2 = [.updateService, .sleepSecs 30, .deleteService, .deleteCluster] := by
  unfold step_ecs
  rw [if_pos h]
  cases h1 : cloud.update_service with
  | error e => left; simp [bindE, call, emit]
  | ok u =>
    cases h2 : cloud.delete_service with
    | error e => right; left; simp [bindE, call, emit]
    | ok u2 =>
      cases h3 : cloud.delete_cluster with
      | error e => right; right; simp [bindE, call, emit]
      | ok u3 => right; right; simp [bindE, call, emit]

/-- C6 amended-claim witness at a concrete configured input. -/
theorem C6_fixed_sleep_sequence_witness :
    (step_ecs env_c6 cloudOk initResults).2.2 =
      [.updateService, .sleepSecs 30, .deleteService, .deleteCluster] := by
  rcases C6_fixed_sleep_sequence env_c6 cloudOk initResults (by decide) with h | h | h
  · exact absurd h (by decide)
  · exact absurd h (by decide)
  · exact h

/-- C7 counterexample: even on a truncated listing the step makes a
single current-objects listing, one batch delete and the bucket delete;
it never lists object versions or delete markers and never fetches the
next page. -/
theorem C7_counterexample :
    cloud_c7.list_objects_v2 = .ok ⟨some ["a", "b"], true⟩ ∧
    (cleanup_s3_bucket cloud_c7 "bkt").2 = [.listObjectsV2, .deleteObjects 2, .deleteBucket] ∧
    ¬ spec_s3_enumerates_versions cloud_c7 "bkt" := by
  refine ⟨rfl, by decide, ?_⟩
  intro h
  have h2 : hasEv isListVersions (cleanup_s3_bucket cloud_c7 "bkt").2 = true := h
  exact absurd h2 (by decide)

lemma s3_not_listver : ∀ e, isS3Event e = true → isListVersions e = false := by
  intro e h
  cases e <;> simp_all [isS3Event, isListVersions]

/-- C7 corrected: the bucket step issues exactly one unpaginated
current-objects listing, at most one batch delete of the listed keys,
then the bucket delete (truncated at the first raise); it never
enumerates object versions or delete markers. -/
theorem C7_single_page_delete (cloud : Cloud) (b : String) :
    ((cleanup_s3_bucket cloud b).2 = [.listObjectsV2] ∨
     (∃ n, (cleanup_s3_bucket cloud b).2 = [.listObjectsV2, .deleteObjects n]) ∨
     (∃ n, (cleanup_s3_bucket cloud b).2 = [.listObjectsV2, .deleteObjects n, .deleteBucket]) ∨
     (cleanup_s3_bucket cloud b).2 = [.listObjectsV2, .deleteBucket]) ∧
    noEv isListVersions (cleanup_s3_bucket cloud b).2 = true := by
  constructor
  · unfold cleanup_s3_bucket
    cases h1 : cloud.list_objects_v2 with
    | error e => left; simp [bindE, call]
    | ok resp =>
      rcases hr : resp.contents with _ | objs
      · right; right; right
        cases h3 : cloud.delete_bucket <;> simp [bindE, call, hr, h3]
      · cases h2 : cloud.delete_objects objs with
        | error e =>
          right; left
          exact ⟨objs.length, by simp [bindE, call, hr, h2]⟩
        | ok u =>
          right; right; left
          cases h3 : cloud.delete_bucket with
          | error e => exact ⟨objs.length, by simp [bindE, call, hr, h2, h3]⟩
          | ok u2 => exact ⟨objs.length, by simp [bindE, call, hr, h2, h3]⟩
  · exact noEv_of_all isS3Event isListVersions s3_not_listver _ (cleanup_s3_all cloud b)

/-- C8 counterexample: tearing down vpc-1 releases the unassociated
address that belongs to vpc-2 — the query filters only on domain=vpc,
not on the network. -/
theorem C8_counterexample : ¬ spec_release_scoped cloud_c8 "vpc-1" := by
  intro h
  have hmem : addr_c8 ∈ [addr_c8] := List.mem_singleton.mpr rfl
  have := h [addr_c8] rfl addr_c8 hmem (by decide)
  exact absurd this (by decide)

/-- C8 corrected: the release loop releases exactly the unassociated
addresses of the domain=vpc query response, whatever network they
belong to; associated addresses are skipped, and the loop never raises
(a failed release is swallowed with a warning). -/
theorem C8_release_unscoped (cloud : Cloud) (addrs : List Address) :
    (releaseEips cloud addrs).1 = .ok () ∧
    (releaseEips cloud addrs).2 =
      (addrs.filter (fun a => a.associationId.isNone)).map
        (fun a => Event.releaseAddress a.allocationId) := by
  induction addrs with
  | nil => exact ⟨rfl, rfl⟩
  | cons a rest ih =>
    rcases ih with ⟨ih1, ih2⟩
    have hstep : releaseEips cloud (a :: rest) =
        bindE (if a.associationId.isNone then
                 match cloud.release_address a.allocationId with
                 | .ok _ => ((Except.ok ()), [Event.releaseAddress a.allocationId])
                 | .error _ => ((Except.ok ()), [Event.releaseAddress a.allocationId])
               else ((Except.ok ()), []))
          (fun _ => releaseEips cloud rest) := rfl
    rw [hstep]
    cases ha : a.associationId with
    | none =>
      cases hrel : cloud.release_address a.allocationId with
      | ok u =>
        constructor
        · simp [bindE, ha, hrel, ih1]
        · simp [bindE, ha, hrel, ih1, ih2, List.filter]
      | error e =>
        constructor
        · simp [bindE, ha, hrel, ih1]
        · simp [bindE, ha, hrel, ih1, ih2, List.filter]
    | some s =>
      constructor
      · simp [bindE, ha, ih1]
      · simp [bindE, ha, ih1, ih2, List.filter]

lemma step_ecs_frames (env : Env) (cloud : Cloud) (r : Results) :
    (step_ecs env cloud r).2.1.load_balancer = r.load_balancer ∧
    (step_ecs env cloud r).2.1.target_groups = r.target_groups ∧
    (step_ecs env cloud r).2.1.s3_bucket = r.s3_bucket ∧
    (step_ecs env cloud r).2.1.vpc_resources = r.vpc_resources ∧
    (step_ecs env cloud r).2.1.route53_records = r.route53_records ∧
    (step_ecs env cloud r).2.1.ssl_certificate = r.ssl_certificate ∧
    (step_ecs env cloud r).2.1.error = r.error := by
  unfold step_ecs
  split
  · cases h1 : cloud.update_service <;> cases h2 : cloud.delete_service <;>
      cases h3 : cloud.delete_cluster <;> simp [bindE, call, emit, h1, h2, h3]
  · simp

lemma step_lb_frames (env : Env) (cloud : Cloud) (r : Results) :
    (step_lb env cloud r).2.1.ecs_service = r.ecs_service ∧
    (step_lb env cloud r).2.1.ecs_cluster = r.ecs_cluster ∧
    (step_lb env cloud r).2.1.s3_bucket = r.s3_bucket ∧
    (step_lb env cloud r).2.1.vpc_resources = r.vpc_resources ∧
    (step_lb env cloud r).2.1.route53_records = r.route53_records ∧
    (step_lb env cloud r).2.1.ssl_certificate = r.ssl_certificate ∧
    (step_lb env cloud r).2.1.error = r.error := by
  unfold step_lb
  split
  · cases h1 : cloud.describe_target_groups with
    | error e => simp [call]
    | ok tgs =>
      cases h2 : cloud.delete_load_balancer with
      | error e => simp [call]
      | ok u =>
        dsimp only [call]
        rcases h3 : deleteTgs cloud (albTgs (env.alb_arn.getD "") tgs) with ⟨res3, t3⟩
        cases res3 <;> simp
  · simp

lemma liftStep_frame {α : Type} (g : Results → α) (a : ER Unit) (upd : Results → Results)
    (r : Results) (h : g (upd r) = g r) : g ((liftStep a upd r).2.1) = g r := by
  rcases a with ⟨res, t⟩
  cases res <;> simp [liftStep, h]

lemma step_s3_frames (env : Env) (cloud : Cloud) (r : Results) :
    (step_s3 env cloud r).2.1.ecs_service = r.ecs_service ∧
    (step_s3 env cloud r).2.1.ecs_cluster = r.ecs_cluster ∧
    (step_s3 env cloud r).2.1.load_balancer = r.load_balancer ∧
    (step_s3 env cloud r).2.1.target_groups = r.target_groups ∧
    (step_s3 env cloud r).2.1.vpc_resources = r.vpc_resources ∧
    (step_s3 env cloud r).2.1.route53_records = r.route53_records ∧
    (step_s3 env cloud r).2.1.ssl_certificate = r.ssl_certificate ∧
    (step_s3 env cloud r).2.1.error = r.error := by
  unfold step_s3
  split
  · exact ⟨liftStep_frame _ _ _ _ rfl, liftStep_frame _ _ _ _ rfl, liftStep_frame _ _ _ _ rfl,
      liftStep_frame _ _ _ _ rfl, liftStep_frame _ _ _ _ rfl, liftStep_frame _ _ _ _ rfl,
      liftStep_frame _ _ _ _ rfl, liftStep_frame _ _ _ _ rfl⟩
  · simp

lemma step_route53_frames (env : Env) (cloud : Cloud) (r : Results) :
    (step_route53 env cloud r).2.1.ecs_service = r.ecs_service ∧
    (step_route53 env cloud r).2.1.ecs_cluster = r.ecs_cluster ∧
    (step_route53 env cloud r).2.1.load_balancer = r.load_balancer ∧
    (step_route53 env cloud r).2.1.target_groups = r.target_groups ∧
    (step_route53 env cloud r).2.1.s3_bucket = r.s3_bucket ∧
    (step_route53 env cloud r).2.1.vpc_resources = r.vpc_resources ∧
    (step_route53 env cloud r).2.1.ssl_certificate = r.ssl_certificate ∧
    (step_route53 env cloud r).2.1.error = r.error := by
  unfold step_route53
  split
  · exact ⟨liftStep_frame _ _ _ _ rfl, liftStep_frame _ _ _ _ rfl, liftStep_frame _ _ _ _ rfl,
      liftStep_frame _ _ _ _ rfl, liftStep_frame _ _ _ _ rfl, liftStep_frame _ _ _ _ rfl,
      liftStep_frame _ _ _ _ rfl, liftStep_frame _ _ _ _ rfl⟩
  · simp

lemma step_ssl_frames (env : Env) (cloud : Cloud) (r : Results) :
    (step_ssl env cloud r).2.1.ecs_service = r.ecs_service ∧
    (step_ssl env cloud r).2.1.ecs_cluster = r.ecs_cluster ∧
    (step_ssl env cloud r).2.1.load_balancer = r.load_balancer ∧
    (step_ssl env cloud r).2.1.target_groups = r.target_groups ∧
    (step_ssl env cloud r).2.1.s3_bucket = r.s3_bucket ∧
    (step_ssl env cloud r).2.1.vpc_resources = r.vpc_resources ∧
    (step_ssl env cloud r).2.1.route53_records = r.route53_records ∧
    (step_ssl env cloud r).2.1.error = r.error := by
  unfold step_ssl
  split
  · exact ⟨liftStep_frame _ _ _ _ rfl, liftStep_frame _ _ _ _ rfl, liftStep_frame _ _ _ _ rfl,
      liftStep_frame _ _ _ _ rfl, liftStep_frame _ _ _ _ rfl, liftStep_frame _ _ _ _ rfl,
      liftStep_frame _ _ _ _ rfl, liftStep_frame _ _ _ _ rfl⟩
  · simp

lemma step_vpc_frames (env : Env) (cloud : Cloud) (r : Results) :
    (step_vpc env cloud r).2.1.ecs_service = r.ecs_service ∧
    (step_vpc env cloud r).2.1.ecs_cluster = r.ecs_cluster ∧
    (step_vpc env cloud r).2.1.load_balancer = r.load_balancer ∧
    (step_vpc env cloud r).2.1.target_groups = r.target_groups ∧
    (step_vpc env cloud r).2.1.s3_bucket = r.s3_bucket ∧
    (step_vpc env cloud r).2.1.route53_records = r.route53_records ∧
    (step_vpc env cloud r).2.1.ssl_certificate = r.ssl_certificate ∧
    (step_vpc env cloud r).2.1.error = r.error := by
  unfold step_vpc
  split
  · exact ⟨liftStep_frame _ _ _ _ rfl, liftStep_frame _ _ _ _ rfl, liftStep_frame _ _ _ _ rfl,
      liftStep_frame _ _ _ _ rfl, liftStep_frame _ _ _ _ rfl, liftStep_frame _ _ _ _ rfl,
      liftStep_frame _ _ _ _ rfl, liftStep_frame _ _ _ _ rfl⟩
  · simp

lemma S_ecs_service (env : Env) (cloud : Cloud) : ∀ r,
    (step_ecs env cloud r).2.1.ecs_service = true →
    r.ecs_service = true ∨ ecsServiceDone env cloud := by
  intro r
  unfold step_ecs
  split
  · rename_i hc
    cases h1 : cloud.update_service with
    | error e => dsimp only [bindE, call, emit]; exact fun h => Or.inl h
    | ok u =>
      cases u
      cases h2 : cloud.delete_service with
      | error e => dsimp only [bindE, call, emit]; exact fun h => Or.inl h
      | ok u2 =>
        cases u2
        cases h3 : cloud.delete_cluster with
        | error e => dsimp only [bindE, call, emit]; exact fun _ => Or.inr ⟨hc, h1, h2⟩
        | ok u3 => dsimp only [bindE, call, emit]; exact fun _ => Or.inr ⟨hc, h1, h2⟩
  · exact fun h => Or.inl h

lemma S_ecs_cluster (env : Env) (cloud : Cloud) : ∀ r,
    (step_ecs env cloud r).2.1.ecs_cluster = true →
    r.ecs_cluster = true ∨ ecsClusterDone env cloud := by
  intro r
  unfold step_ecs
  split
  · rename_i hc
    cases h1 : cloud.update_service with
    | error e => dsimp only [bindE, call, emit]; exact fun h => Or.inl h
    | ok u =>
      cases u
      cases h2 : cloud.delete_service with
      | error e => dsimp only [bindE, call, emit]; exact fun h => Or.inl h
      | ok u2 =>
        cases u2
        cases h3 : cloud.delete_cluster with
        | error e => dsimp only [bindE, call, emit]; exact fun h => Or.inl h
        | ok u3 => cases u3; exact fun _ => Or.inr ⟨⟨hc, h1, h2⟩, h3⟩
  · exact fun h => Or.inl h

lemma S_lb_delete (env : Env) (cloud : Cloud) : ∀ r,
    (step_lb env cloud r).2.1.load_balancer = true →
    r.load_balancer = true ∨ lbDeleteDone env cloud := by
  intro r
  unfold step_lb
  split
  · rename_i halb
    cases h1 : cloud.describe_target_groups with
    | error e => dsimp only [call]; exact fun h => Or.inl h
    | ok tgs =>
      cases h2 : cloud.delete_load_balancer with
      | error e => dsimp only [call]; exact fun h => Or.inl h
      | ok u =>
        cases u
        dsimp only [call]
        rcases h3 : deleteTgs cloud (albTgs (env.alb_arn.getD "") tgs) with ⟨res3, t3⟩
        cases res3 <;> exact fun _ => Or.inr ⟨halb, ⟨tgs, h1⟩, h2⟩
  · exact fun h => Or.inl h

lemma S_tgs (env : Env) (cloud : Cloud) : ∀ r,
    (step_lb env cloud r).2.1.target_groups = true →
    r.target_groups = true ∨ tgsDone env cloud := by
  intro r
  unfold step_lb
  split
  · rename_i halb
    cases h1 : cloud.describe_target_groups with
    | error e => dsimp only [call]; exact fun h => Or.inl h
    | ok tgs =>
      cases h2 : cloud.delete_load_balancer with
      | error e => dsimp only [call]; exact fun h => Or.inl h
      | ok u =>
        cases u
        dsimp only [call]
        rcases h3 : deleteTgs cloud (albTgs (env.alb_arn.getD "") tgs) with ⟨res3, t3⟩
        cases res3 with
        | error e => exact fun h => Or.inl h
        | ok u2 => cases u2; exact fun _ => Or.inr ⟨halb, h2, tgs, h1, by rw [h3]⟩
  · exact fun h => Or.inl h

lemma S_s3 (env : Env) (cloud : Cloud) : ∀ r,
    (step_s3 env cloud r).2.1.s3_bucket = true →
    r.s3_bucket = true ∨ s3Done env cloud := by
  intro r
  unfold step_s3
  split
  · rename_i hb
    unfold liftStep
    rcases hs : cleanup_s3_bucket cloud (env.config_bucket.getD "") with ⟨res, t⟩
    cases res with
    | error e => exact fun h => Or.inl h
    | ok u => cases u; exact fun _ => Or.inr ⟨hb, by rw [hs]⟩
  · exact fun h => Or.inl h

lemma S_r53 (env : Env) (cloud : Cloud) : ∀ r,
    (step_route53 env cloud r).2.1.route53_records = true →
    r.route53_records = true ∨ r53Done env cloud := by
  intro r
  unfold step_route53
  split
  · rename_i hb
    unfold liftStep
    rcases hs : cleanup_route53_records env cloud with ⟨res, t⟩
    cases res with
    | error e => exact fun h => Or.inl h
    | ok u => cases u; exact fun _ => Or.inr ⟨hb, by rw [hs]⟩
  · exact fun h => Or.inl h

lemma S_ssl (env : Env) (cloud : Cloud) : ∀ r,
    (step_ssl env cloud r).2.1.ssl_certificate = true →
    r.ssl_certificate = true ∨ sslDone env cloud := by
  intro r
  unfold step_ssl
  split
  · rename_i hb
    unfold liftStep
    rcases hs : cleanup_ssl_certificate env cloud with ⟨res, t⟩
    cases res with
    | error e => exact fun h => Or.inl h
    | ok u => cases u; exact fun _ => Or.inr ⟨hb, by rw [hs]⟩
  · exact fun h => Or.inl h

lemma S_vpc (env : Env) (cloud : Cloud) : ∀ r,
    (step_vpc env cloud r).2.1.vpc_resources = true →
    r.vpc_resources = true ∨ vpcDone env cloud := by
  intro r
  unfold step_vpc
  split
  · rename_i hb
    unfold liftStep
    rcases hs : cleanup_vpc_resources cloud (env.vpc_id.getD "") with ⟨res, t⟩
    cases res with
    | error e => exact fun h => Or.inl h
    | ok u => cases u; exact fun _ => Or.inr ⟨hb, by rw [hs]⟩
  · exact fun h => Or.inl h

lemma S_of_eq {P : Prop} {x y : Bool} (he : x = y) (h : x = true) : y = true ∨ P :=
  Or.inl (he ▸ h)

lemma flagS_comp (g : Results → Bool) (P : Prop) (k1 k2 : Results → PC)
    (h1 : ∀ r, g ((k1 r).2.1) = true → g r = true ∨ P)
    (h2 : ∀ r, g ((k2 r).2.1) = true → g r = true ∨ P) :
    ∀ r, g ((stepBind (k1 r) k2).2.1) = true → g r = true ∨ P := by
  intro r hg
  rcases hk : k1 r with ⟨res1, r1, t1⟩
  rw [hk] at hg
  cases res1 with
  | error e =>
    simp only [stepBind] at hg
    exact h1 r (by rw [hk]; exact hg)
  | ok u =>
    simp only [stepBind] at hg
    rcases h2 r1 hg with hgr | hp
    · exact h1 r (by rw [hk]; exact hgr)
    · exact Or.inr hp

lemma frame_comp {α : Type} (g : Results → α) (k1 k2 : Results → PC)
    (h1 : ∀ r, g ((k1 r).2.1) = g r)
    (h2 : ∀ r, g ((k2 r).2.1) = g r) :
    ∀ r, g ((stepBind (k1 r) k2).2.1) = g r := by
  intro r
  rcases hk : k1 r with ⟨res1, r1, t1⟩
  have hr1 : g r1 = g r := by
    have hh := h1 r
    rw [hk] at hh
    exact hh
  cases res1 with
  | error e => simpa [stepBind] using hr1
  | ok u =>
    simp only [stepBind]
    rw [h2 r1]
    exact hr1

lemma chain_flag_ecs_service (env : Env) (cloud : Cloud) : ∀ r,
    (chainK env cloud r).2.1.ecs_service = true →
    r.ecs_service = true ∨ ecsServiceDone env cloud := by
  unfold chainK
  exact flagS_comp _ _ _ _ (S_ecs_service env cloud)
    (flagS_comp _ _ _ _ (fun r => S_of_eq (step_lb_frames env cloud r).1)
      (flagS_comp _ _ _ _ (fun r => S_of_eq (step_s3_frames env cloud r).1)
        (flagS_comp _ _ _ _ (fun r => S_of_eq (step_route53_frames env cloud r).1)
          (flagS_comp _ _ _ _ (fun r => S_of_eq (step_ssl_frames env cloud r).1)
            (fun r => S_of_eq (step_vpc_frames env cloud r).1)))))

lemma chain_flag_ecs_cluster (env : Env) (cloud : Cloud) : ∀ r,
    (chainK env cloud r).2.1.ecs_cluster = true →
    r.ecs_cluster = true ∨ ecsClusterDone env cloud := by
  unfold chainK
  exact flagS_comp _ _ _ _ (S_ecs_cluster env cloud)
    (flagS_comp _ _ _ _ (fun r => S_of_eq (step_lb_frames env cloud r).2.1)
      (flagS_comp _ _ _ _ (fun r => S_of_eq (step_s3_frames env cloud r).2.1)
        (flagS_comp _ _ _ _ (fun r => S_of_eq (step_route53_frames env cloud r).2.1)
          (flagS_comp _ _ _ _ (fun r => S_of_eq (step_ssl_frames env cloud r).2.1)
            (fun r => S_of_eq (step_vpc_frames env cloud r).2.1)))))

lemma chain_flag_lb (env : Env) (cloud : Cloud) : ∀ r,
    (chainK env cloud r).2.1.load_balancer = true →
    r.load_balancer = true ∨ lbDeleteDone env cloud := by
  unfold chainK
  exact flagS_comp _ _ _ _ (fun r => S_of_eq (step_ecs_frames env cloud r).1)
    (flagS_comp _ _ _ _ (S_lb_delete env cloud)
      (flagS_comp _ _ _ _ (fun r => S_of_eq (step_s3_frames env cloud r).2.2.1)
        (flagS_comp _ _ _ _ (fun r => S_of_eq (step_route53_frames env cloud r).2.2.1)
          (flagS_comp _ _ _ _ (fun r => S_of_eq (step_ssl_frames env cloud r).2.2.1)
            (fun r => S_of_eq (step_vpc_frames env cloud r).2.2.1)))))

lemma chain_flag_tgs (env : Env) (cloud : Cloud) : ∀ r,
    (chainK env cloud r).2.1.target_groups = true →
    r.target_groups = true ∨ tgsDone env cloud := by
  unfold chainK
  exact flagS_comp _ _ _ _ (fun r => S_of_eq (step_ecs_frames env cloud r).2.1)
    (flagS_comp _ _ _ _ (S_tgs env cloud)
      (flagS_comp _ _ _ _ (fun r => S_of_eq (step_s3_frames env cloud r).2.2.2.1)
        (flagS_comp _ _ _ _ (fun r => S_of_eq (step_route53_frames env cloud r).2.2.2.1)
          (flagS_comp _ _ _ _ (fun r => S_of_eq (step_ssl_frames env cloud r).2.2.2.1)
            (fun r => S_of_eq (step_vpc_frames env cloud r).2.2.2.1)))))

lemma chain_flag_s3 (env : Env) (cloud : Cloud) : ∀ r,
    (chainK env cloud r).2.1.s3_bucket = true →
    r.s3_bucket = true ∨ s3Done env cloud := by
  unfold chainK
  exact flagS_comp _ _ _ _ (fun r => S_of_eq (step_ecs_frames env cloud r).2.2.1)
    (flagS_comp _ _ _ _ (fun r => S_of_eq (step_lb_frames env cloud r).2.2.1)
      (flagS_comp _ _ _ _ (S_s3 env cloud)
        (flagS_comp _ _ _ _ (fun r => S_of_eq (step_route53_frames env cloud r).2.2.2.2.1)
          (flagS_comp _ _ _ _ (fun r => S_of_eq (step_ssl_frames env cloud r).2.2.2.2.1)
            (fun r => S_of_eq (step_vpc_frames env cloud r).2.2.2.2.1)))))

lemma chain_flag_r53 (env : Env) (cloud : Cloud) : ∀ r,
    (chainK env cloud r).2.1.route53_records = true →
    r.route53_records = true ∨ r53Done env cloud := by
  unfold chainK
  exact flagS_comp _ _ _ _ (fun r => S_of_eq (step_ecs_frames env cloud r).2.2.2.2.1)
    (flagS_comp _ _ _ _ (fun r => S_of_eq (step_lb_frames env cloud r).2.2.2.2.1)
      (flagS_comp _ _ _ _ (fun r => S_of_eq (step_s3_frames env cloud r).2.2.2.2.2.1)
        (flagS_comp _ _ _ _ (S_r53 env cloud)
          (flagS_comp _ _ _ _ (fun r => S_of_eq (step_ssl_frames env cloud r).2.2.2.2.2.2.1)
            (fun r => S_of_eq (step_vpc_frames env cloud r).2.2.2.2.2.1)))))

lemma chain_flag_ssl (env : Env) (cloud : Cloud) : ∀ r,
    (chainK env cloud r).2.1.ssl_certificate = true →
    r.ssl_certificate = true ∨ sslDone env cloud := by
  unfold chainK
  exact flagS_comp _ _ _ _ (fun r => S_of_eq (step_ecs_frames env cloud r).2.2.2.2.2.1)
    (flagS_comp _ _ _ _ (fun r => S_of_eq (step_lb_frames env cloud r).2.2.2.2.2.1)
      (flagS_comp _ _ _ _ (fun r => S_of_eq (step_s3_frames env cloud r).2.2.2.2.2.2.1)
        (flagS_comp _ _ _ _ (fun r => S_of_eq (step_route53_frames env cloud r).2.2.2.2.2.2.1)
          (flagS_comp _ _ _ _ (S_ssl env cloud)
            (fun r => S_of_eq (step_vpc_frames env cloud r).2.2.2.2.2.2.1)))))

lemma chain_flag_vpc (env : Env) (cloud : Cloud) : ∀ r,
    (chainK env cloud r).2.1.vpc_resources = true →
    r.vpc_resources = true ∨ vpcDone env cloud := by
  unfold chainK
  exact flagS_comp _ _ _ _ (fun r => S_of_eq (step_ecs_frames env cloud r).2.2.2.1)
    (flagS_comp _ _ _ _ (fun r => S_of_eq (step_lb_frames env cloud r).2.2.2.1)
      (flagS_comp _ _ _ _ (fun r => S_of_eq (step_s3_frames env cloud r).2.2.2.2.1)
        (flagS_comp _ _ _ _ (fun r => S_of_eq (step_route53_frames env cloud r).2.2.2.2.2.1)
          (flagS_comp _ _ _ _ (fun r => S_of_eq (step_ssl_frames env cloud r).2.2.2.2.2.1)
            (S_vpc env cloud)))))

lemma chain_error (env : Env) (cloud : Cloud) : ∀ r,
    (chainK env cloud r).2.1.error = r.error := by
  unfold chainK
  exact frame_comp (fun rr => rr.error) _ _
    (fun r => (step_ecs_frames env cloud r).2.2.2.2.2.2)
    (frame_comp _ _ _ (fun r => (step_lb_frames env cloud r).2.2.2.2.2.2)
      (frame_comp _ _ _ (fun r => (step_s3_frames env cloud r).2.2.2.2.2.2.2)
        (frame_comp _ _ _ (fun r => (step_route53_frames env cloud r).2.2.2.2.2.2.2)
          (frame_comp _ _ _ (fun r => (step_ssl_frames env cloud r).2.2.2.2.2.2.2)
            (fun r => (step_vpc_frames env cloud r).2.2.2.2.2.2.2)))))

/-- C10: every report produced by `perform_cleanup` is a `Results`
value — exactly the eight fixed resource keys plus the optional error
key; the error key is present iff a step of the `try` block raised, and
each resource flag is true only if that resource's deletion path ran to
completion. -/
theorem C10_report_shape (env : Env) (cloud : Cloud) :
    ((perform_cleanup env cloud).1.error.isSome = true ↔
       ∃ e, (perform_steps env cloud).1 = .error e) ∧
    ((perform_cleanup env cloud).1.ecs_service = true → ecsServiceDone env cloud) ∧
    ((perform_cleanup env cloud).1.ecs_cluster = true → ecsClusterDone env cloud) ∧
    ((perform_cleanup env cloud).1.load_balancer = true → lbDeleteDone env cloud) ∧
    ((perform_cleanup env cloud).1.target_groups = true → tgsDone env cloud) ∧
    ((perform_cleanup env cloud).1.s3_bucket = true → s3Done env cloud) ∧
    ((perform_cleanup env cloud).1.route53_records = true → r53Done env cloud) ∧
    ((perform_cleanup env cloud).1.ssl_certificate = true → sslDone env cloud) ∧
    ((perform_cleanup env cloud).1.vpc_resources = true → vpcDone env cloud) := by
  rcases hps : perform_steps env cloud with ⟨res, rfin, t⟩
  have hchain : chainK env cloud initResults = (res, rfin, t) := hps
  have hserr : rfin.error = none := by
    have hh := chain_error env cloud initResults
    rw [hchain] at hh
    exact hh
  have hS1 : rfin.ecs_service = true → ecsServiceDone env cloud := by
    intro h
    rcases chain_flag_ecs_service env cloud initResults (by rw [hchain]; exact h) with h0 | hd
    · exact absurd h0 (by decide)
    · exact hd
  have hS2 : rfin.ecs_cluster = true → ecsClusterDone env cloud := by
    intro h
    rcases chain_flag_ecs_cluster env cloud initResults (by rw [hchain]; exact h) with h0 | hd
    · exact absurd h0 (by decide)
    · exact hd
  have hS3 : rfin.load_balancer = true → lbDeleteDone env cloud := by
    intro h
    rcases chain_flag_lb env cloud initResults (by rw [hchain]; exact h) with h0 | hd
    · exact absurd h0 (by decide)
    · exact hd
  have hS4 : rfin.target_groups = true → tgsDone env cloud := by
    intro h
    rcases chain_flag_tgs env cloud initResults (by rw [hchain]; exact h) with h0 | hd
    · exact absurd h0 (by decide)
    · exact hd
  have hS5 : rfin.s3_bucket = true → s3Done env cloud := by
    intro h
    rcases chain_flag_s3 env cloud initResults (by rw [hchain]; exact h) with h0 | hd
    · exact absurd h0 (by decide)
    · exact hd
  have hS6 : rfin.route53_records = true → r53Done env cloud := by
    intro h
    rcases chain_flag_r53 env cloud initResults (by rw [hchain]; exact h) with h0 | hd
    · exact absurd h0 (by decide)
    · exact hd
  have hS7 : rfin.ssl_certificate = true → sslDone env cloud := by
    intro h
    rcases chain_flag_ssl env cloud initResults (by rw [hchain]; exact h) with h0 | hd
    · exact absurd h0 (by decide)
    · exact hd
  have hS8 : rfin.vpc_resources = true → vpcDone env cloud := by
    intro h
    rcases chain_flag_vpc env cloud initResults (by rw [hchain]; exact h) with h0 | hd
    · exact absurd h0 (by decide)
    · exact hd
  unfold perform_cleanup
  rw [hps]
  cases res with
  | error e =>
    exact ⟨⟨fun _ => ⟨e, rfl⟩, fun _ => rfl⟩, hS1, hS2, hS3, hS4, hS5, hS6, hS7, hS8⟩
  | ok u =>
    refine ⟨?_, hS1, hS2, hS3, hS4, hS5, hS6, hS7, hS8⟩
    constructor
    · intro h
      have h2 : rfin.error.isSome = true := h
      rw [hserr] at h2
      simp at h2
    · rintro ⟨e', he'⟩
      cases he'

/-- C10 witness: at a configured bucket with a working platform the
flag is set and the completion predicate holds. -/
theorem C10_report_shape_witness :
    (perform_cleanup env_c10 cloudOk).1.s3_bucket = true ∧ s3Done env_c10 cloudOk :=
  ⟨by decide, (C10_report_shape env_c10 cloudOk).2.2.2.2.2.1 (by decide)⟩

/-- C1 counterexample: with the bucket configured and the load-balancer
delete failing, the bucket step never runs. -/
theorem C1_counterexample : ¬ spec_lb_failure_continues env_c1 cloud_c1 := by
  intro h
  have h2 := h ⟨.other "AccessDenied", rfl⟩ (by decide)
  exact absurd h2 (by decide)

/-- C1 corrected: all six steps share one `try` block, so a raise in
the load-balancer delete aborts every subsequent step: the report keeps
the later flags at their initial False, records the error, and the
trace contains no bucket-listing and no VPC-delete call. -/
theorem C1_lb_failure_aborts (env : Env) (cloud : Cloud) (e : AwsErr) (tgs : List TargetGroup)
    (halb : truthy env.alb_arn = true)
    (hd : cloud.describe_target_groups = .ok tgs)
    (hlb : cloud.delete_load_balancer = .error e) :
    (perform_cleanup env cloud).1.error.isSome = true ∧
    (perform_cleanup env cloud).1.s3_bucket = false ∧
    (perform_cleanup env cloud).1.vpc_resources = false ∧
    (perform_cleanup env cloud).1.route53_records = false ∧
    (perform_cleanup env cloud).1.ssl_certificate = false ∧
    noEv isListObjects (perform_cleanup env cloud).2 = true ∧
    noEv isVpcDelete (perform_cleanup env cloud).2 = true := by
  have hlbstep : ∀ r, step_lb env cloud r =
      (.error e, r, [.describeTargetGroups, .deleteLoadBalancer]) := by
    intro r
    unfold step_lb
    rw [if_pos halb]
    simp [call, hd, hlb]
  rcases hA : step_ecs env cloud initResults with ⟨resA, rA, tA⟩
  have hfr := step_ecs_frames env cloud initResults
  rw [hA] at hfr
  have hs3 : rA.s3_bucket = false := hfr.2.2.1
  have hvpc : rA.vpc_resources = false := hfr.2.2.2.1
  have hr53 : rA.route53_records = false := hfr.2.2.2.2.1
  have hssl : rA.ssl_certificate = false := hfr.2.2.2.2.2.1
  have htA : tA.all isEcsEvent = true := by
    have hh := step_ecs_all env cloud initResults
    rw [hA] at hh
    exact hh
  have htObj : noEv isListObjects tA = true := noEv_of_all _ _ ecs_not_listobj tA htA
  have htVpc : noEv isVpcDelete tA = true := noEv_of_all _ _ ecs_not_vpcdel tA htA
  cases resA with
  | error eA =>
    have hps : perform_steps env cloud = (.error eA, rA, tA) := by
      show chainK env cloud initResults = _
      unfold chainK
      rw [hA]
      rfl
    have hpc : perform_cleanup env cloud = ({ rA with error := some eA.msg }, tA) := by
      unfold perform_cleanup
      rw [hps]
    rw [hpc]
    exact ⟨rfl, hs3, hvpc, hr53, hssl, htObj, htVpc⟩
  | ok u =>
    have hps : perform_steps env cloud =
        (.error e, rA, tA ++ [.describeTargetGroups, .deleteLoadBalancer]) := by
      show chainK env cloud initResults = _
      unfold chainK
      rw [hA]
      simp only [stepBind]
      rw [hlbstep rA]
    have hpc : perform_cleanup env cloud =
        ({ rA with error := some e.msg }, tA ++ [.describeTargetGroups, .deleteLoadBalancer]) := by
      unfold perform_cleanup
      rw [hps]
    rw [hpc]
    refine ⟨rfl, hs3, hvpc, hr53, hssl, ?_, ?_⟩
    · rw [noEv_append, htObj]
      rfl
    · rw [noEv_append, htVpc]
      rfl

/-- C1 amended-claim witness at the concrete failing input. -/
theorem C1_lb_failure_aborts_witness :
    (perform_cleanup env_c1 cloud_c1).1.error.isSome = true ∧
    (perform_cleanup env_c1 cloud_c1).1.s3_bucket = false ∧
    (perform_cleanup env_c1 cloud_c1).1.vpc_resources = false ∧
    (perform_cleanup env_c1 cloud_c1).1.route53_records = false ∧
    (perform_cleanup env_c1 cloud_c1).1.ssl_certificate = false ∧
    noEv isListObjects (perform_cleanup env_c1 cloud_c1).2 = true ∧
    noEv isVpcDelete (perform_cleanup env_c1 cloud_c1).2 = true :=
  C1_lb_failure_aborts env_c1 cloud_c1 (.other "AccessDenied") [] (by decide) rfl rfl

/-- C4 counterexample: the bucket being already absent makes the S3
step raise; the report records the not-found as its error and the
bucket flag stays False. -/
theorem C4_counterexample :
    cloud_c4.list_objects_v2 = .error .notFound ∧
    (perform_cleanup env_c4 cloud_c4).1.s3_bucket = false ∧
    ¬ spec_notfound_never_failed env_c4 cloud_c4 := by
  refine ⟨rfl, by decide, ?_⟩
  intro h
  exact absurd (h rfl) (by decide)

/-- C4 corrected: only the certificate step maps not-found to an
idempotent no-op; the bucket step propagates a not-found as a raise,
which the orchestrator records as the report's error while the bucket
flag stays unchanged — errors still never escape `perform_cleanup`
itself (it is a total function). -/
theorem C4_notfound_mapping (env : Env) (cloud : Cloud) :
    (cloud.describe_certificate = .error .notFound →
       (cleanup_ssl_certificate env cloud).1 = .ok ()) ∧
    (cloud.describe_certificate = .ok () → cloud.delete_certificate = .error .notFound →
       (cleanup_ssl_certificate env cloud).1 = .ok ()) ∧
    (truthy env.config_bucket = true → cloud.list_objects_v2 = .error .notFound →
       ∀ r, (step_s3 env cloud r).1 = .error .notFound ∧ (step_s3 env cloud r).2.1 = r) := by
  refine ⟨?_, ?_, ?_⟩
  · intro h
    unfold cleanup_ssl_certificate
    split
    · rfl
    · rw [h]
  · intro h1 h2
    unfold cleanup_ssl_certificate
    split
    · rfl
    · rw [h1, h2]
  · intro hb hl r
    unfold step_s3
    rw [if_pos hb]
    have hs : cleanup_s3_bucket cloud (env.config_bucket.getD "") =
        (.error .notFound, [.listObjectsV2]) := by
      unfold cleanup_s3_bucket
      rw [hl]
      rfl
    rw [hs]
    exact ⟨rfl, rfl⟩

/-- C4 amended-claim witness at the two concrete not-found inputs. -/
theorem C4_notfound_mapping_witness :
    (cleanup_ssl_certificate env_c4ssl cloud_c4ssl).1 = .ok () ∧
    (step_s3 env_c4 cloud_c4 initResults).1 = .error .notFound :=
  ⟨(C4_notfound_mapping env_c4ssl cloud_c4ssl).1 rfl,
   ((C4_notfound_mapping env_c4 cloud_c4).2.2 (by decide) rfl initResults).1⟩

end AutoMock
